import Mathlib

set_option maxRecDepth 8000

/-
Verification development for the Xmpp-Dashboard repository's natural-language
to SQL query engine (src/wpp/config/sqlAgent.js) and the order-register
read path (src/unnamed/part_001, databaseHelper.js).

The JavaScript code is shallowly embedded: pure string processing becomes
Lean functions over `List Char`; JS regular expressions used by the code are
interpreted by explicit executable scanners; database access is modelled by
a driver oracle (an arbitrary function from SQL text and parameters to rows
or a driver error) for the generic executor, and relationally (tables as
lists of records) for the fixed hand-written queries of the order-register
helper; JS numbers are modelled as rationals (float rounding and NaN are
outside every claim checked here); `toLocaleString`, which is locale
dependent in JS, is an oracle parameter.
-/

/- ───────────────────────── JS string primitives ───────────────────────── -/

/-- JS whitespace class `\s` restricted to the ASCII characters that occur in
this repository's inputs: space, tab, LF, CR, VT, FF. -/
def isJsWS (c : Char) : Bool :=
  c = ' ' || c = '\t' || c = '\n' || c = '\r' || c = Char.ofNat 11 || c = Char.ofNat 12

/-- JS regex word character `\w` = `[A-Za-z0-9_]`. -/
def isWordChar (c : Char) : Bool := c.isAlpha || c.isDigit || c = '_'

def isAlnum (c : Char) : Bool := c.isAlpha || c.isDigit

def upperChars (l : List Char) : List Char := l.map Char.toUpper

def lowerChars (l : List Char) : List Char := l.map Char.toLower

/-- JS `String.prototype.trim`, left part. -/
def jsTrimL (l : List Char) : List Char := l.dropWhile isJsWS

/-- JS `String.prototype.trim`, right part. -/
def jsTrimR (l : List Char) : List Char := (l.reverse.dropWhile isJsWS).reverse

def jsTrimChars (l : List Char) : List Char := jsTrimR (jsTrimL l)

def jsTrim (s : String) : String := String.mk (jsTrimChars s.data)

/-- Strip `p` from the front of `l` (exact character match), returning the
remainder on success. -/
def stripPrefixCh : List Char → List Char → Option (List Char)
  | [], s => some s
  | _ :: _, [] => none
  | p :: ps, c :: cs => if c = p then stripPrefixCh ps cs else none

/-- Plain substring containment (needle, haystack). -/
def containsSub (needle : List Char) : List Char → Bool
  | [] => (stripPrefixCh needle []).isSome
  | c :: rest => (stripPrefixCh needle (c :: rest)).isSome || containsSub needle rest

/-- Case-insensitive substring containment, as SQL `LOWER(x) LIKE LOWER('%k%')`
computes it for a pattern without wildcard characters. -/
def containsSubCI (needle hay : List Char) : Bool :=
  containsSub (lowerChars needle) (lowerChars hay)

/-- Does `kw` match at the head of `s` with a `\b` boundary after it? -/
def wwMatchAt (kw s : List Char) : Bool :=
  match stripPrefixCh kw s with
  | none => false
  | some rest =>
    match rest with
    | [] => true
    | c :: _ => !isWordChar c

/-- Scanner for `\bkw\b`: `prevW` records whether the previous character was a
word character (false at the start of input). -/
def cwwAux (kw : List Char) : Bool → List Char → Bool
  | _, [] => false
  | prevW, c :: rest => (!prevW && wwMatchAt kw (c :: rest)) || cwwAux kw (isWordChar c) rest

/-- JS `new RegExp("\\b" + kw + "\\b").test(s)` for a literal keyword. -/
def containsWholeWord (kw s : List Char) : Bool := cwwAux kw false s

/-- Case-insensitive `\bkw\b` test (`kw` given in lowercase), as a JS `/i` regex. -/
def containsWordCI (kw : List Char) (s : List Char) : Bool :=
  containsWholeWord kw (lowerChars s)

/- ──────────────── lemmas: whitespace trimming and whole words ──────────────── -/

theorem jsWS_not_word {c : Char} (h : isJsWS c = true) : isWordChar c = false := by
  simp only [isJsWS, Bool.or_eq_true, decide_eq_true_eq] at h
  rcases h with ((((h | h) | h) | h) | h) | h <;> subst h <;> decide

theorem stripPrefixCh_append_right {p l r t : List Char}
    (h : stripPrefixCh p l = some r) : stripPrefixCh p (l ++ t) = some (r ++ t) := by
  induction p generalizing l r with
  | nil => simp [stripPrefixCh] at h ⊢; simp [h]
  | cons a ps ih =>
    cases l with
    | nil => simp [stripPrefixCh] at h
    | cons c cs =>
      simp only [stripPrefixCh] at h ⊢
      by_cases hc : c = a
      · simp only [hc, if_pos rfl] at h ⊢
        exact ih h
      · simp [hc] at h

theorem stripPrefixCh_none_append {p l ws : List Char}
    (hp : ∀ c ∈ p, isWordChar c = true) (hws : ∀ c ∈ ws, isJsWS c = true)
    (h : stripPrefixCh p l = none) : stripPrefixCh p (l ++ ws) = none := by
  induction l generalizing p with
  | nil =>
    cases p with
    | nil => simp [stripPrefixCh] at h
    | cons a ps =>
      cases ws with
      | nil => simp [stripPrefixCh]
      | cons w ws' =>
        simp only [List.nil_append, stripPrefixCh]
        have ha : isWordChar a = true := hp a (by simp)
        have hw : isJsWS w = true := hws w (by simp)
        have : w ≠ a := by
          intro he
          rw [he] at hw
          rw [jsWS_not_word hw] at ha
          exact Bool.false_ne_true ha
        simp [this]
  | cons c cs ih =>
    cases p with
    | nil => simp [stripPrefixCh] at h
    | cons a ps =>
      simp only [stripPrefixCh, List.cons_append] at h ⊢
      by_cases hc : c = a
      · simp only [hc, if_pos rfl] at h ⊢
        exact ih (fun x hx => hp x (by simp [hx])) h
      · simp [hc]

theorem wwMatchAt_append_ws {kw xs ws : List Char}
    (hp : ∀ c ∈ kw, isWordChar c = true) (hws : ∀ c ∈ ws, isJsWS c = true) :
    wwMatchAt kw (xs ++ ws) = wwMatchAt kw xs := by
  unfold wwMatchAt
  cases h : stripPrefixCh kw xs with
  | none => rw [stripPrefixCh_none_append hp hws h]
  | some r =>
    rw [stripPrefixCh_append_right h]
    cases r with
    | nil =>
      cases ws with
      | nil => rfl
      | cons w ws' =>
        have hw : isJsWS w = true := hws w (by simp)
        simp [jsWS_not_word hw]
    | cons c r' => rfl

theorem cwwAux_all_ws {kw : List Char} (hk : kw ≠ [])
    (hp : ∀ c ∈ kw, isWordChar c = true) :
    ∀ (ws : List Char), (∀ c ∈ ws, isJsWS c = true) → ∀ b, cwwAux kw b ws = false := by
  intro ws
  induction ws with
  | nil => intro _ b; rfl
  | cons w ws' ih =>
    intro hws b
    have hw : isJsWS w = true := hws w (by simp)
    have hmatch : wwMatchAt kw (w :: ws') = false := by
      cases kw with
      | nil => exact absurd rfl hk
      | cons a ps =>
        have ha : isWordChar a = true := hp a (by simp)
        have : w ≠ a := by
          intro he
          rw [he] at hw
          rw [jsWS_not_word hw] at ha
          exact Bool.false_ne_true ha
        simp [wwMatchAt, stripPrefixCh, this]
    simp only [cwwAux, hmatch, Bool.and_false, Bool.false_or]
    exact ih (fun c hc => hws c (by simp [hc])) _

theorem cwwAux_prepend_ws {kw : List Char} (hk : kw ≠ [])
    (hp : ∀ c ∈ kw, isWordChar c = true) :
    ∀ (ws t : List Char), (∀ c ∈ ws, isJsWS c = true) →
      cwwAux kw false (ws ++ t) = cwwAux kw false t := by
  intro ws t
  induction ws with
  | nil => intro _; rfl
  | cons w ws' ih =>
    intro hws
    have hw : isJsWS w = true := hws w (by simp)
    have hmatch : wwMatchAt kw (w :: (ws' ++ t)) = false := by
      cases kw with
      | nil => exact absurd rfl hk
      | cons a ps =>
        have ha : isWordChar a = true := hp a (by simp)
        have : w ≠ a := by
          intro he
          rw [he] at hw
          rw [jsWS_not_word hw] at ha
          exact Bool.false_ne_true ha
        simp [wwMatchAt, stripPrefixCh, this]
    have hstep : cwwAux kw false (w :: (ws' ++ t)) = cwwAux kw (isWordChar w) (ws' ++ t) := by
      simp [cwwAux, hmatch]
    rw [List.cons_append, hstep, jsWS_not_word hw]
    exact ih (fun c hc => hws c (by simp [hc]))

theorem cwwAux_append_ws {kw : List Char} (hk : kw ≠ [])
    (hp : ∀ c ∈ kw, isWordChar c = true) :
    ∀ (t ws : List Char), (∀ c ∈ ws, isJsWS c = true) → ∀ b,
      cwwAux kw b (t ++ ws) = cwwAux kw b t := by
  intro t
  induction t with
  | nil =>
    intro ws hws b
    simp only [List.nil_append]
    rw [cwwAux_all_ws hk hp ws hws b]
    rfl
  | cons c t' ih =>
    intro ws hws b
    show cwwAux kw b (c :: (t' ++ ws)) = cwwAux kw b (c :: t')
    have h1 : cwwAux kw b (c :: (t' ++ ws)) =
        ((!b && wwMatchAt kw (c :: (t' ++ ws))) || cwwAux kw (isWordChar c) (t' ++ ws)) := rfl
    have h2 : cwwAux kw b (c :: t') =
        ((!b && wwMatchAt kw (c :: t')) || cwwAux kw (isWordChar c) t') := rfl
    rw [h1, h2, ← List.cons_append, wwMatchAt_append_ws hp hws, ih ws hws]

/-- Trimming JS whitespace from either end of the haystack does not change
whether an all-word-character keyword occurs as a whole word. -/
theorem containsWholeWord_jsTrim {kw : List Char} (hk : kw ≠ [])
    (hp : ∀ c ∈ kw, isWordChar c = true) (l : List Char) :
    containsWholeWord kw (jsTrimChars l) = containsWholeWord kw l := by
  have hdecompL : l.takeWhile isJsWS ++ l.dropWhile isJsWS = l :=
    List.takeWhile_append_dropWhile isJsWS l
  have hdecompR : jsTrimR (l.dropWhile isJsWS) ++
      ((l.dropWhile isJsWS).reverse.takeWhile isJsWS).reverse = l.dropWhile isJsWS := by
    unfold jsTrimR
    rw [← List.reverse_append, List.takeWhile_append_dropWhile, List.reverse_reverse]
  have hws1 : ∀ c ∈ l.takeWhile isJsWS, isJsWS c = true := by
    intro c hc
    exact List.mem_takeWhile_imp hc
  have hws2 : ∀ c ∈ ((l.dropWhile isJsWS).reverse.takeWhile isJsWS).reverse, isJsWS c = true := by
    intro c hc
    rw [List.mem_reverse] at hc
    exact List.mem_takeWhile_imp hc
  unfold containsWholeWord
  conv_rhs => rw [← hdecompL, ← hdecompR]
  rw [cwwAux_prepend_ws hk hp _ _ hws1]
  rw [cwwAux_append_ws hk hp _ _ hws2]
  rfl

theorem toNat_ofNat_valid {n : Nat} (h : n.isValidChar) : (Char.ofNat n).toNat = n := by
  rw [Char.ofNat, dif_pos h]
  rfl

theorem isJsWS_false_of_ge (c : Char) (h : 65 ≤ c.toNat) : isJsWS c = false := by
  have h1 : ¬(c = ' ') := fun he => by rw [he] at h; exact absurd h (by decide)
  have h2 : ¬(c = '\t') := fun he => by rw [he] at h; exact absurd h (by decide)
  have h3 : ¬(c = '\n') := fun he => by rw [he] at h; exact absurd h (by decide)
  have h4 : ¬(c = '\r') := fun he => by rw [he] at h; exact absurd h (by decide)
  have h5 : ¬(c = Char.ofNat 11) := fun he => by rw [he] at h; exact absurd h (by decide)
  have h6 : ¬(c = Char.ofNat 12) := fun he => by rw [he] at h; exact absurd h (by decide)
  simp [isJsWS, h1, h2, h3, h4, h5, h6]

theorem toUpper_eq_ite (c : Char) :
    c.toUpper = if c.toNat ≥ 97 ∧ c.toNat ≤ 122 then Char.ofNat (c.toNat - 32) else c := rfl

theorem isJsWS_toUpper (c : Char) : isJsWS c.toUpper = isJsWS c := by
  by_cases hc : c.toNat ≥ 97 ∧ c.toNat ≤ 122
  · have hup : c.toUpper.toNat = c.toNat - 32 := by
      rw [toUpper_eq_ite, if_pos hc]
      exact toNat_ofNat_valid (Or.inl (by omega))
    have h65 : 65 ≤ c.toUpper.toNat := by omega
    have hc65 : 65 ≤ c.toNat := by omega
    rw [isJsWS_false_of_ge _ h65, isJsWS_false_of_ge _ hc65]
  · rw [toUpper_eq_ite, if_neg hc]

theorem upperChars_reverse (l : List Char) : (upperChars l).reverse = upperChars l.reverse := by
  unfold upperChars
  exact (List.map_reverse _ _).symm

theorem jsTrimChars_upperChars (l : List Char) :
    jsTrimChars (upperChars l) = upperChars (jsTrimChars l) := by
  have hfun : (isJsWS ∘ Char.toUpper) = isJsWS := by
    funext c
    simp [Function.comp, isJsWS_toUpper]
  have hdw : ∀ (t : List Char), (upperChars t).dropWhile isJsWS = upperChars (t.dropWhile isJsWS) := by
    intro t
    unfold upperChars
    rw [List.dropWhile_map, hfun]
  unfold jsTrimChars jsTrimL jsTrimR
  rw [hdw, upperChars_reverse, hdw, upperChars_reverse]

/- ───────────────────────── executeQuery (SQLAgent) ───────────────────────── -/

/-- A JavaScript value as the query layer sees it: string, number (modelled as
a rational) or null; an absent object property is `Option.none` one level up. -/
inductive JsVal where
  | str (s : String)
  | num (q : ℚ)
  | null
deriving DecidableEq

/-- A database row: property name to value, first binding wins. -/
abbrev Row := List (String × JsVal)

def getF (r : Row) (k : String) : Option JsVal :=
  (r.find? (fun p => p.1 = k)).map (fun p => p.2)

/-- JS truthiness of a possibly-absent value. -/
def jsTruthy : Option JsVal → Bool
  | none => false
  | some .null => false
  | some (.str s) => s ≠ ""
  | some (.num q) => q ≠ 0

/-- The driver oracle standing for `pool.execute`: for given SQL text and
bound parameters, either rows or a driver error message. -/
abbrev Driver := String → List JsVal → Except String (List Row)

structure ExecResult where
  success : Bool
  rows : List Row
  count : Nat
  error : Option String
deriving DecidableEq

/-- `executeQuery`'s forbidden keyword list (sqlAgent.js line 82). -/
def forbiddenKeywords : List String :=
  ["INSERT", "UPDATE", "DELETE", "DROP", "CREATE", "ALTER", "TRUNCATE",
   "REPLACE", "MERGE", "CALL", "EXEC", "GRANT", "REVOKE"]

/-- `normalizedSQL` of `executeQuery`: `sql.trim().toUpperCase()`. -/
def normalizedSQLOf (sql : String) : List Char := upperChars (jsTrimChars sql.data)

/-- The safety gate of `executeQuery` (sqlAgent.js lines 77-88): trim and
uppercase the SQL, require a SELECT prefix, then reject any forbidden keyword
occurring as a regex whole word; returns the error message thrown, if any. -/
def guardError (sql : String) : Option String :=
  if !("SELECT".data.isPrefixOf (normalizedSQLOf sql)) then
    some "Only SELECT queries are allowed"
  else
    match forbiddenKeywords.find? (fun kw => containsWholeWord kw.data (normalizedSQLOf sql)) with
    | some kw => some ("Query contains forbidden keyword: " ++ kw)
    | none => none

/-- `SQLAgent.executeQuery` (sqlAgent.js lines 75-113). Besides the structured
result, the embedding returns the list of calls that reached the driver, so
that "sends nothing to the database" is a statement about the trace. -/
def executeQuery (drv : Driver) (sql : String) (params : List JsVal) :
    ExecResult × List (String × List JsVal) :=
  match guardError sql with
  | some e => ({ success := false, rows := [], count := 0, error := some e }, [])
  | none =>
    match drv sql params with
    | .ok rows => ({ success := true, rows := rows, count := rows.length, error := none }, [(sql, params)])
    | .error msg => ({ success := false, rows := [], count := 0, error := some msg }, [(sql, params)])

/-- The failure shape of `executeQuery`: whenever it reports failure, the rows
are empty, the count is zero and an error message is present. -/
theorem executeQuery_failure_shape (drv : Driver) (sql : String) (params : List JsVal)
    (h : (executeQuery drv sql params).1.success = false) :
    (executeQuery drv sql params).1.rows = [] ∧
    (executeQuery drv sql params).1.count = 0 ∧
    ((executeQuery drv sql params).1.error).isSome = true := by
  unfold executeQuery at h ⊢
  cases hg : guardError sql with
  | some e => simp [hg]
  | none =>
    cases hd : drv sql params with
    | ok rows => simp [hg, hd] at h
    | error msg => simp [hg, hd]

/-- C1. For every SQL string and parameter list, when the trimmed uppercased
SQL does not start with SELECT, or a forbidden keyword (INSERT, UPDATE,
DELETE, DROP, CREATE, ALTER, TRUNCATE, REPLACE, MERGE, CALL, EXEC, GRANT,
REVOKE) occurs as a whole word anywhere in the SQL case-insensitively (string
literals and comments included — the guard is purely textual), `executeQuery`
returns a failure result (success = false) and sends nothing to the database
(its driver-call trace is empty). -/
theorem executeQuery_guard_rejects (drv : Driver) (sql : String) (params : List JsVal)
    (h : ¬ ("SELECT".data.isPrefixOf (upperChars (jsTrimChars sql.data)) = true) ∨
         ∃ kw ∈ forbiddenKeywords, containsWholeWord kw.data (upperChars sql.data) = true) :
    (executeQuery drv sql params).1.success = false ∧
    (executeQuery drv sql params).2 = [] := by
  have hguard : (guardError sql).isSome = true := by
    unfold guardError
    by_cases hsel : "SELECT".data.isPrefixOf (normalizedSQLOf sql) = true
    · rcases h with h | ⟨kw, hkw, hcontains⟩
      · rw [normalizedSQLOf] at hsel
        exact absurd hsel h
      · have hk : kw.data ≠ [] := by
          have hall : ∀ k ∈ forbiddenKeywords, k.data ≠ [] := by decide
          exact hall kw hkw
        have hp : ∀ c ∈ kw.data, isWordChar c = true := by
          have hall : ∀ k ∈ forbiddenKeywords, ∀ c ∈ k.data, isWordChar c = true := by decide
          exact hall kw hkw
        have hnorm : containsWholeWord kw.data (normalizedSQLOf sql) = true := by
          rw [normalizedSQLOf, ← jsTrimChars_upperChars, containsWholeWord_jsTrim hk hp]
          exact hcontains
        have hfind : (forbiddenKeywords.find? (fun k =>
            containsWholeWord k.data (normalizedSQLOf sql))).isSome = true := by
          rw [List.find?_isSome]
          exact ⟨kw, hkw, hnorm⟩
        rw [hsel]
        simp only [Bool.not_true, Bool.false_eq_true, if_false]
        cases hfind2 : forbiddenKeywords.find? (fun k =>
            containsWholeWord k.data (normalizedSQLOf sql)) with
        | some k => simp
        | none => rw [hfind2] at hfind; simp at hfind
    · simp only [Bool.not_eq_true] at hsel
      simp [hsel]
  unfold executeQuery
  cases hg : guardError sql with
  | some e => simp
  | none => rw [hg] at hguard; simp at hguard

def drvOkEmpty : Driver := fun _ _ => .ok []

/-- Witness for C1 at a concrete input: the forbidden word DROP sits inside a
string literal of an otherwise harmless SELECT, yet the guard rejects and the
driver is never called. -/
theorem executeQuery_guard_rejects_witness :
    (∃ kw ∈ forbiddenKeywords,
      containsWholeWord kw.data (upperChars ("SELECT 'please DROP the act'").data) = true) ∧
    (executeQuery drvOkEmpty "SELECT 'please DROP the act'" []).1.success = false ∧
    (executeQuery drvOkEmpty "SELECT 'please DROP the act'" []).2 = [] := by
  refine ⟨⟨"DROP", by decide, by decide⟩, ?_⟩
  exact executeQuery_guard_rejects drvOkEmpty _ []
    (Or.inr ⟨"DROP", by decide, by decide⟩)

/- ──────────────────── fast-path pattern models (sqlAgent.js) ──────────────────── -/

/-- JS regex `.` excludes these line terminators (without the `s` flag). -/
def isJsLineTerm (c : Char) : Bool :=
  c = '\n' || c = '\r' || c = Char.ofNat 8232 || c = Char.ofNat 8233

/-- `[-\s]`, the separator class of the PP-number pattern. -/
def isDashWS (c : Char) : Bool := c = '-' || isJsWS c

/-- Match `w1` then `\s*` then `w2` at the head of `s` (for `/black\s*bar/`-style
patterns; callers lower-case everything for `/i`). -/
def gapMatchAt (w1 w2 s : List Char) : Bool :=
  match stripPrefixCh w1 s with
  | some rest => (stripPrefixCh w2 (rest.dropWhile isJsWS)).isSome
  | none => false

/-- `new RegExp(w1 + "\\s*" + w2).test s` for literal words. -/
def containsGapPat (w1 w2 : List Char) : List Char → Bool
  | [] => gapMatchAt w1 w2 []
  | c :: rest => gapMatchAt w1 w2 (c :: rest) || containsGapPat w1 w2 rest

/-- At the head of `s`, match one of the whole words `kws` (boundary after
included); boundary before is the caller's business.  Returns the remainder. -/
def wwAnyMatchAt (kws : List (List Char)) (s : List Char) : Option (List Char) :=
  kws.findSome? (fun kw =>
    match stripPrefixCh kw s with
    | none => none
    | some rest =>
      match rest with
      | [] => some []
      | c :: cs => if isWordChar c then none else some (c :: cs))

/-- Scanner: does one of the whole words `kws` occur in the input? -/
def cwwAnyAux (kws : List (List Char)) : Bool → List Char → Bool
  | _, [] => false
  | prevW, c :: rest =>
    (!prevW && (wwAnyMatchAt kws (c :: rest)).isSome) || cwwAnyAux kws (isWordChar c) rest

/-- `\b(ws1)\b.*\b(ws2)\b` where `.` does not cross line terminators: some word
of `ws1` occurs whole, and later on the same line some word of `ws2`. -/
def cooccurWW (ws1 ws2 : List (List Char)) : Bool → List Char → Bool
  | _, [] => false
  | prevW, c :: rest =>
    (!prevW &&
      (match wwAnyMatchAt ws1 (c :: rest) with
       | some rem => cwwAnyAux ws2 true (rem.takeWhile (fun d => !isJsLineTerm d))
       | none => false)) || cooccurWW ws1 ws2 (isWordChar c) rest

/-- `/black\s*bar/i.test(userQuestion)` (sqlAgent.js line 178). -/
def hasBlackBar (q : String) : Bool :=
  containsGapPat "black".data "bar".data (lowerChars q.data)

/-- `/bright\s*bar/i.test(userQuestion)` (sqlAgent.js line 179). -/
def hasBrightBar (q : String) : Bool :=
  containsGapPat "bright".data "bar".data (lowerChars q.data)

/-- The regex of sqlAgent.js line 183:
`/\b(total|grand|all)\b.*\bstock\b|\bstock\b.*\b(total|grand|all)\b/i`. -/
def grandTotalPat (q : String) : Bool :=
  cooccurWW ["total".data, "grand".data, "all".data] ["stock".data] false (lowerChars q.data) ||
  cooccurWW ["stock".data] ["total".data, "grand".data, "all".data] false (lowerChars q.data)

/-- `isGrandTotal` (sqlAgent.js lines 182-183). -/
def isGrandTotal (q : String) : Bool :=
  !hasBlackBar q && !hasBrightBar q && grandTotalPat q

/-- The bar-type stock fast-path trigger (sqlAgent.js line 185). -/
def barTypeTriggers (q : String) : Bool :=
  hasBlackBar q || hasBrightBar q || isGrandTotal q

/-- Whether the bar-type fast-path takes its grand-total branch
(sqlAgent.js line 213: `isGrandTotal || hasBoth`). -/
def barGrandBranch (q : String) : Bool :=
  isGrandTotal q || (hasBlackBar q && hasBrightBar q)

/-- The single-bar branch's `is_blackbar` flag (sqlAgent.js line 239). -/
def barFlagOf (q : String) : Nat := if hasBlackBar q then 1 else 0

/-- Maximal digit run at the head: (digits, remainder). -/
def takeDigits : List Char → (List Char × List Char)
  | [] => ([], [])
  | c :: rest =>
    if c.isDigit then
      match takeDigits rest with
      | (ds, r) => (c :: ds, r)
    else ([], c :: rest)

/-- Match `PP[-\s]\d{4}[-\s]\d+\b` at the head of the input (case-insensitive
on the PP), returning the matched characters in their original case. -/
def ppMatchAt : List Char → Option (List Char)
  | p1 :: p2 :: sep1 :: d1 :: d2 :: d3 :: d4 :: sep2 :: rest =>
    if (p1 = 'P' || p1 = 'p') && (p2 = 'P' || p2 = 'p') && isDashWS sep1 &&
       d1.isDigit && d2.isDigit && d3.isDigit && d4.isDigit && isDashWS sep2 then
      match takeDigits rest with
      | ([], _) => none
      | (ds, r4) =>
        match r4 with
        | [] => some (p1 :: p2 :: sep1 :: d1 :: d2 :: d3 :: d4 :: sep2 :: ds)
        | c :: _ =>
          if isWordChar c then none
          else some (p1 :: p2 :: sep1 :: d1 :: d2 :: d3 :: d4 :: sep2 :: ds)
    else none
  | _ => none

/-- Leftmost match of `/\b(PP[-\s]\d{4}[-\s]\d+)\b/i` (sqlAgent.js line 266). -/
def ppFindAux : Bool → List Char → Option (List Char)
  | _, [] => none
  | prevW, c :: rest =>
    match if prevW then none else ppMatchAt (c :: rest) with
    | some m => some m
    | none => ppFindAux (isWordChar c) rest

def ppFind (q : String) : Option (List Char) := ppFindAux false q.data

/-- `ppnoMatch[1].replace(/\s/g, '-').toUpperCase()` (sqlAgent.js line 269). -/
def normalizePpno (m : List Char) : String :=
  String.mk (upperChars (m.map (fun c => if isJsWS c then '-' else c)))

/-- `ppno.replace(/^PP[-\s]/i, '')` (sqlAgent.js line 271). -/
def ppNumericPart (ppno : String) : String :=
  match ppno.data with
  | p1 :: p2 :: s :: rest =>
    if (p1 = 'P' || p1 = 'p') && (p2 = 'P' || p2 = 'p') && isDashWS s then String.mk rest
    else ppno
  | _ => ppno

def ppnoLike (ppno : String) : String := "%" ++ ppNumericPart ppno ++ "%"

/-- `/\bproduction\b/i.test(userQuestion)` (sqlAgent.js line 316). -/
def isProductionQuery (q : String) : Bool :=
  containsWholeWord "production".data (lowerChars q.data)

/-- `/\bcompleted?\b/i.test(q)` (sqlAgent.js line 322). -/
def wantsCompleted (q : String) : Bool :=
  containsWholeWord "completed".data (lowerChars q.data) ||
  containsWholeWord "complete".data (lowerChars q.data)

/-- `/\bcancel(?:led)?\b/i.test(q)` (sqlAgent.js line 323). -/
def wantsCancelled (q : String) : Bool :=
  containsWholeWord "cancelled".data (lowerChars q.data) ||
  containsWholeWord "cancel".data (lowerChars q.data)

/- ─────────────── stock fast-path SKU heuristics (sqlAgent.js 365-427) ─────────────── -/

/-- `naturalLanguageWords` (sqlAgent.js lines 369-382). -/
def naturalLanguageWords : List String :=
  ["what", "whats", "how", "show", "list", "give", "get", "find", "fetch",
   "tell", "is", "are", "the", "a", "an", "of", "for", "in", "all", "me",
   "check", "any", "current", "available", "total", "remaining",
   "order", "orders", "pending", "completed", "progress", "inprogress",
   "dispatch", "dispatches", "invoice", "invoices", "status", "customer",
   "production", "plan", "data", "number", "pp",
   "pvt", "ltd", "private", "limited", "india", "industries", "company",
   "corp", "corporation", "enterprises", "solutions", "services", "group",
   "hose", "pipe", "steel", "metals", "forging", "casting", "engineering"]

/-- `replace(/^stock\s+/i, '')`. -/
def stripLeadingStock (l : List Char) : List Char :=
  match l with
  | c1 :: c2 :: c3 :: c4 :: c5 :: rest =>
    if lowerChars [c1, c2, c3, c4, c5] = "stock".data then
      match rest with
      | c6 :: _ => if isJsWS c6 then rest.dropWhile isJsWS else l
      | [] => l
    else l
  | _ => l

/-- `replace(/\s+stock$/i, '')`. -/
def stripTrailingStock (l : List Char) : List Char :=
  match l.reverse with
  | k :: c :: o :: t :: s :: rest =>
    if lowerChars [k, c, o, t, s] = "kcots".data then
      match rest with
      | w :: _ => if isJsWS w then (rest.dropWhile isJsWS).reverse else l
      | [] => l
    else l
  | _ => l

/-- `stripped` (sqlAgent.js line 383). -/
def strippedQuestion (q : String) : String :=
  String.mk (jsTrimChars (stripTrailingStock (stripLeadingStock (jsTrimChars q.data))))

/-- `hadStockWord` (sqlAgent.js line 384). -/
def hadStockWord (q : String) : Bool :=
  decide ((strippedQuestion q).data.length < (jsTrimChars q.data).length)

/-- JS `split(/\s+/)` (a leading or trailing separator yields an empty piece).
State: `some cur` while building a token, `none` inside a whitespace run. -/
def splitWSGo : List Char → Option (List Char) → List String
  | [], some cur => [String.mk cur.reverse]
  | [], none => [""]
  | c :: rest, some cur =>
    if isJsWS c then String.mk cur.reverse :: splitWSGo rest none
    else splitWSGo rest (some (c :: cur))
  | c :: rest, none =>
    if isJsWS c then splitWSGo rest none
    else splitWSGo rest (some [c])

def jsSplitWS (s : String) : List String := splitWSGo s.data (some [])

/-- `strippedWords` (sqlAgent.js line 386). -/
def strippedWords (q : String) : List String :=
  jsSplitWS (String.mk (lowerChars (strippedQuestion q).data))

/-- `hasNaturalWords` (sqlAgent.js line 387). -/
def hasNaturalWords (q : String) : Bool :=
  (strippedWords q).any (fun w => naturalLanguageWords.contains w)

def isSkuGroupChar (c : Char) : Bool := isAlnum c || c = '.'

/-- State of the SKU-shape scanner: just after a separator and before the
first group character, or inside a group's character run. -/
inductive SkuSt where
  | first
  | run

/-- The repeated group of the SKU shape regex `([-\s][a-zA-Z0-9.]+){1,8}$`:
`n` counts completed groups; the character classes are pairwise disjoint, so
the greedy regex is this deterministic scan. -/
def skuGroupsSt : List Char → Nat → SkuSt → Bool
  | [], _, .first => false
  | [], n, .run => decide (1 ≤ n + 1 ∧ n + 1 ≤ 8)
  | c :: rest, n, .first => if isSkuGroupChar c then skuGroupsSt rest n .run else false
  | c :: rest, n, .run =>
    if isSkuGroupChar c then skuGroupsSt rest n .run
    else if isDashWS c then skuGroupsSt rest (n + 1) .first
    else false

/-- Inside the initial `[a-zA-Z0-9]+` run of the SKU shape. -/
def skuShapeRun : List Char → Bool
  | [] => false
  | c :: rest =>
    if isAlnum c then skuShapeRun rest
    else if isDashWS c then skuGroupsSt rest 0 .first
    else false

/-- Full-string match of `/^[a-zA-Z0-9]+([-\s][a-zA-Z0-9.]+){1,8}$/`
(sqlAgent.js line 388). -/
def skuShape : List Char → Bool
  | [] => false
  | c :: rest => if isAlnum c then skuShapeRun rest else false

/-- `looksLikeSku` (sqlAgent.js line 388). -/
def looksLikeSku (q : String) : Bool :=
  !hasNaturalWords q && skuShape (strippedQuestion q).data

/-- The stock fast-path trigger (sqlAgent.js line 390). -/
def stockTriggers (q : String) : Bool :=
  (hadStockWord q && !hasNaturalWords q) || looksLikeSku q

/- ───────────────────────── the fast-path decision list ───────────────────────── -/

/-- Which branch of `queryFromNaturalLanguage` handles a question: the guards
are tested in source order (sqlAgent.js lines 185, 267, 318, 390), the
language-model path being the fall-through. -/
inductive FastPath where
  | barType
  | ppLookup
  | production
  | stockSku
  | aiPath
deriving DecidableEq

def classify (q : String) : FastPath :=
  if barTypeTriggers q then .barType
  else if (ppFind q).isSome then .ppLookup
  else if isProductionQuery q then .production
  else if stockTriggers q then .stockSku
  else .aiPath

/-- C3 counterexample: the input "black bar stock PP-2602-1595 production"
contains a PP-number pattern and the word "production", yet the bar-type
fast-path (tested first) handles it, not the PP-number exact lookup. -/
theorem classify_pp_production_cex :
    (ppFind "black bar stock PP-2602-1595 production").isSome = true ∧
    isProductionQuery "black bar stock PP-2602-1595 production" = true ∧
    classify "black bar stock PP-2602-1595 production" = FastPath.barType ∧
    classify "black bar stock PP-2602-1595 production" ≠ FastPath.ppLookup := by
  refine ⟨by decide, by decide, by decide, by decide⟩

/-- C3 amended: the classifier tests its patterns in the fixed source order
bar-type, PP-number, production listing, stock-by-SKU; consequently, on every
input that does not trigger the bar-type fast-path, a PP-number pattern routes
to the PP exact lookup (in particular ahead of the production listing), and an
input containing the whole word "production" is never classified as a SKU
stock lookup. -/
theorem classify_order_amended :
    (∀ q : String, barTypeTriggers q = true → classify q = FastPath.barType) ∧
    (∀ q : String, barTypeTriggers q = false → (ppFind q).isSome = true →
      classify q = FastPath.ppLookup) ∧
    (∀ q : String, barTypeTriggers q = false → ppFind q = none →
      isProductionQuery q = true → classify q = FastPath.production) ∧
    (∀ q : String, barTypeTriggers q = false → ppFind q = none →
      isProductionQuery q = false → stockTriggers q = true →
      classify q = FastPath.stockSku) ∧
    (∀ q : String, isProductionQuery q = true → classify q ≠ FastPath.stockSku) := by
  refine ⟨?_, ?_, ?_, ?_, ?_⟩
  · intro q h
    simp [classify, h]
  · intro q h1 h2
    simp [classify, h1, h2]
  · intro q h1 h2 h3
    simp [classify, h1, h2, h3]
  · intro q h1 h2 h3 h4
    simp [classify, h1, h2, h3, h4]
  · intro q hprod
    unfold classify
    by_cases h1 : barTypeTriggers q = true
    · simp [h1]
    · simp only [Bool.not_eq_true] at h1
      by_cases h2 : (ppFind q).isSome = true
      · simp [h1, h2]
      · simp only [Bool.not_eq_true] at h2
        simp [h1, h2, hprod]

/-- Witness for C3's amended theorem at concrete inputs: "Pp-2602-1595
production plan data" routes to the PP lookup (not the production listing),
and "production pending" is production-classified, never a SKU stock lookup. -/
theorem classify_order_amended_witness :
    (barTypeTriggers "Pp-2602-1595 production plan data" = false ∧
     (ppFind "Pp-2602-1595 production plan data").isSome = true ∧
     classify "Pp-2602-1595 production plan data" = FastPath.ppLookup) ∧
    (isProductionQuery "production pending" = true ∧
     classify "production pending" ≠ FastPath.stockSku) := by
  refine ⟨⟨by decide, by decide, ?_⟩, by decide, ?_⟩
  · exact classify_order_amended.2.1 _ (by decide) (by decide)
  · exact classify_order_amended.2.2.2.2 _ (by decide)

/- ───────────────── customer resolution (sqlAgent.js 116-162) ───────────────── -/

structure Customer where
  id : Nat
  customer_name : String
deriving DecidableEq

/-- `SQLAgent.lookupCustomerIds` (sqlAgent.js lines 116-128): the fixed query
`SELECT id, customer_name FROM thirupathybright.mastercustomer WHERE
LOWER(customer_name) LIKE LOWER(?) LIMIT 20` with parameter `%keyword%`,
interpreted relationally over the customer table.  Every call site passes a
purely alphanumeric keyword, so the LIKE pattern is substring containment.
(A driver error, caught to `[]` in the source, behaves like an empty table
and is not modelled separately.) -/
def lookupCustomerIds (customers : List Customer) (keyword : String) : List Customer :=
  (customers.filter (fun c => containsSubCI keyword.data c.customer_name.data)).take 20

structure CustomerMatch where
  keyword : String
  customers : List Customer
deriving DecidableEq

/-- `skipWords` of `findCustomerInQuestion` (sqlAgent.js lines 134-145). -/
def skipWords : List String :=
  ["give", "me", "all", "show", "list", "get", "find", "fetch", "what",
   "are", "is", "was", "were", "have", "has", "do", "does", "did", "can",
   "pending", "completed", "in_progress", "inprogress", "progress",
   "order", "orders", "dispatch", "dispatches", "invoice", "invoices",
   "status", "detail", "details", "summary", "report", "available",
   "the", "a", "an", "and", "or", "of", "for", "by", "in", "on", "at",
   "my", "our", "their", "today", "yesterday", "week", "month", "year",
   "customer", "customers", "marketing", "person", "how", "many",
   "which", "where", "when", "who", "why", "please", "tell", "about",
   "stock", "sku", "inventory", "closing", "opening", "inward", "outward"]

/-- `word.replace(/[^a-zA-Z0-9]/g, '')`. -/
def cleanToken (w : String) : String := String.mk (w.data.filter isAlnum)

/-- The word loop of `findCustomerInQuestion` (sqlAgent.js lines 149-160);
`cleanToken w` is the loop body's `clean`. -/
def findCustomerLoop (customers : List Customer) : List String → Option CustomerMatch
  | [] => none
  | w :: rest =>
    if (cleanToken w).data.length < 2 ||
        skipWords.contains (String.mk (lowerChars (cleanToken w).data)) then
      findCustomerLoop customers rest
    else
      match lookupCustomerIds customers (cleanToken w) with
      | [] => findCustomerLoop customers rest
      | c :: cs => some { keyword := cleanToken w, customers := c :: cs }

/-- `SQLAgent.findCustomerInQuestion` (sqlAgent.js lines 132-162). -/
def findCustomerInQuestion (customers : List Customer) (question : String) :
    Option CustomerMatch :=
  findCustomerLoop customers (jsSplitWS (jsTrim question))

/-- C9's description of the lookup, written from the claim: a case-insensitive
substring probe against the customer names, capped at 20 matches. -/
def lookupCustomerSpec (customers : List Customer) (t : String) : List Customer :=
  (customers.filter (fun c =>
    containsSub (lowerChars t.data) (lowerChars c.customer_name.data))).take 20

/-- C9's description of `findCustomerInQuestion`, written from the claim as a
pipeline: split on whitespace, strip non-alphanumerics from each token, drop
tokens shorter than 2 characters or in the stop-word set, then return
keyword and matches for the first surviving token whose lookup is nonempty,
and none when no token matches. -/
def findCustomerSpec (customers : List Customer) (question : String) :
    Option CustomerMatch :=
  (((jsSplitWS (jsTrim question)).map cleanToken).filter (fun t =>
      decide (2 ≤ t.data.length) &&
      !skipWords.contains (String.mk (lowerChars t.data)))).findSome?
    (fun t =>
      match lookupCustomerSpec customers t with
      | [] => none
      | c :: cs => some { keyword := t, customers := c :: cs })

theorem findCustomerLoop_eq_spec (customers : List Customer) (ws : List String) :
    findCustomerLoop customers ws =
    ((ws.map cleanToken).filter (fun t =>
        decide (2 ≤ t.data.length) &&
        !skipWords.contains (String.mk (lowerChars t.data)))).findSome?
      (fun t =>
        match lookupCustomerSpec customers t with
        | [] => none
        | c :: cs => some { keyword := t, customers := c :: cs }) := by
  induction ws with
  | nil => rfl
  | cons w rest ih =>
    rw [List.map_cons, List.filter_cons]
    by_cases hskip : (cleanToken w).data.length < 2 ∨
        skipWords.contains (String.mk (lowerChars (cleanToken w).data)) = true
    · have hcond : (decide ((cleanToken w).data.length < 2) ||
          skipWords.contains (String.mk (lowerChars (cleanToken w).data))) = true := by
        rcases hskip with h | h
        · rw [decide_eq_true h, Bool.true_or]
        · rw [h, Bool.or_true]
      have hpred : (decide (2 ≤ (cleanToken w).data.length) &&
          !skipWords.contains (String.mk (lowerChars (cleanToken w).data))) = false := by
        rcases hskip with h | h
        · rw [decide_eq_false (by omega), Bool.false_and]
        · rw [h]
          simp
      rw [hpred, if_neg Bool.false_ne_true]
      unfold findCustomerLoop
      rw [hcond, if_pos rfl]
      exact ih
    · push_neg at hskip
      obtain ⟨hlen, hstop⟩ := hskip
      have hstop2 : skipWords.contains (String.mk (lowerChars (cleanToken w).data)) = false := by
        rw [Bool.eq_false_iff]
        exact hstop
      have hcond : (decide ((cleanToken w).data.length < 2) ||
          skipWords.contains (String.mk (lowerChars (cleanToken w).data))) = false := by
        rw [decide_eq_false (by omega), hstop2, Bool.or_false]
      have hpred : (decide (2 ≤ (cleanToken w).data.length) &&
          !skipWords.contains (String.mk (lowerChars (cleanToken w).data))) = true := by
        rw [decide_eq_true hlen, hstop2, Bool.true_and, Bool.not_false]
      rw [hpred, if_pos rfl, List.findSome?_cons]
      unfold findCustomerLoop
      rw [hcond, if_neg Bool.false_ne_true]
      cases hlk : lookupCustomerIds customers (cleanToken w) with
      | nil =>
        have hsp : lookupCustomerSpec customers (cleanToken w) = [] := hlk
        rw [hsp]
        exact ih
      | cons c cs =>
        have hsp : lookupCustomerSpec customers (cleanToken w) = c :: cs := hlk
        rw [hsp]

/-- C9. `findCustomerInQuestion` equals its claimed description: split the
input on whitespace, strip non-alphanumerics from each token, skip tokens
shorter than 2 characters or in the fixed stop-word set, probe the remaining
tokens in order with a case-insensitive substring lookup against customer
names capped at 20 matches, return the keyword and matches of the first token
with at least one match, and none when no token matches. -/
theorem findCustomerInQuestion_eq_spec (customers : List Customer) (question : String) :
    findCustomerInQuestion customers question = findCustomerSpec customers question :=
  findCustomerLoop_eq_spec customers (jsSplitWS (jsTrim question))

/- ──────────────── JS number coercions (modelled over the rationals) ──────────────── -/

def digitsToNat (ds : List Char) : Nat := ds.foldl (fun a c => a * 10 + (c.toNat - 48)) 0

/-- Exponent suffix of a JS number literal (`e`/`E`, optional sign, digits):
the multiplier it denotes, 1 when absent; also returns the remainder. -/
def parseExpPart (l : List Char) : ℚ × List Char :=
  match l with
  | e :: rest =>
    if e = 'e' || e = 'E' then
      match rest with
      | '-' :: r2 =>
        match takeDigits r2 with
        | ([], _) => (1, l)
        | (ds, r3) => (1 / 10 ^ digitsToNat ds, r3)
      | '+' :: r2 =>
        match takeDigits r2 with
        | ([], _) => (1, l)
        | (ds, r3) => ((10 : ℚ) ^ digitsToNat ds, r3)
      | r2 =>
        match takeDigits r2 with
        | ([], _) => (1, l)
        | (ds, r3) => ((10 : ℚ) ^ digitsToNat ds, r3)
    else (1, l)
  | [] => (1, l)

/-- Parse a decimal number `[sign]digits[.digits][exp]` at the head of the
input (at least one digit required), as JS `parseFloat` reads a prefix.
Returns the value and the remainder. -/
def parseDecQ (l : List Char) : Option (ℚ × List Char) :=
  let (sign, l1) : ℚ × List Char :=
    match l with
    | '-' :: r => (-1, r)
    | '+' :: r => (1, r)
    | _ => (1, l)
  match takeDigits l1 with
  | ([], r1) =>
    match r1 with
    | '.' :: r2 =>
      match takeDigits r2 with
      | ([], _) => none
      | (fp, r3) =>
        match parseExpPart r3 with
        | (m, r4) => some (sign * ((digitsToNat fp : ℚ) / 10 ^ fp.length) * m, r4)
    | _ => none
  | (ip, r1) =>
    match r1 with
    | '.' :: r2 =>
      match takeDigits r2 with
      | (fp, r3) =>
        match parseExpPart r3 with
        | (m, r4) =>
          some (sign * ((digitsToNat ip : ℚ) + (digitsToNat fp : ℚ) / 10 ^ fp.length) * m, r4)
    | _ =>
      match parseExpPart r1 with
      | (m, r4) => some (sign * (digitsToNat ip : ℚ) * m, r4)

/-- JS `parseFloat` on a string: leading whitespace skipped, longest numeric
prefix taken; an unparseable input gives NaN, which this rational model folds
to 0 (no checked claim feeds such a value). -/
def parseFloatQ (s : String) : ℚ :=
  match parseDecQ (s.data.dropWhile isJsWS) with
  | some (q, _) => q
  | none => 0

/-- JS `parseFloat` applied to a value (only ever called on `x || 0`). -/
def jsParseFloat : JsVal → ℚ
  | .str s => parseFloatQ s
  | .num q => q
  | .null => 0

/-- `x || 0` for a possibly-absent property. -/
def jsOrZero (v : Option JsVal) : JsVal :=
  if jsTruthy v then v.getD JsVal.null else .num 0

/-- `parseFloat(r.field || 0)`. -/
def pfOr0 (v : Option JsVal) : ℚ := jsParseFloat (jsOrZero v)

/-- JS `Number(v)`: full-string numeric conversion; the empty or blank string
is 0; a non-numeric string is NaN, folded to 0 in this model. -/
def jsNumber : JsVal → ℚ
  | .num q => q
  | .null => 0
  | .str s =>
    match jsTrimChars s.data with
    | [] => 0
    | l =>
      match parseDecQ l with
      | some (q, []) => q
      | _ => 0

/-- The two JS renderings of a number: `n.toLocaleString()` (locale dependent)
and default string coercion. Both are oracle parameters of the embedding. -/
structure NumFmt where
  locale : ℚ → String
  plain : ℚ → String

/-- Value as a JS template literal renders it. -/
def displayVal (fmt : NumFmt) : JsVal → String
  | .str s => s
  | .num q => fmt.plain q
  | .null => "null"

def strRepeat (s : String) (n : Nat) : String := String.join (List.replicate n s)

/-- `'─'.repeat(30)`. -/
def hr30 : String := strRepeat "─" 30

/- ───────────── queryFromNaturalLanguage: result shape and fast paths ───────────── -/

/-- The result object of `queryFromNaturalLanguage`. Fields prefixed `_` in
the JS (`_directReply`, `_isProductionQuery`, `_statusContext`, `_ppLookup`,
`_isStockQuery`) lose the underscore here; `none`/`false` stands for the
property being absent. -/
structure NLResult where
  success : Bool
  query : Option String := none
  data : List Row := []
  count : Nat := 0
  error : Option String := none
  directReply : Option String := none
  isProductionQuery : Bool := false
  statusContext : Option String := none
  ppLookup : Bool := false
  isStockQuery : Bool := false
deriving DecidableEq

/-- `sumQty` (sqlAgent.js line 186). -/
def sumQty (rows : List Row) : ℚ :=
  rows.foldl (fun acc r => acc + pfOr0 (getF r "closing_qty")) 0

def barRegSQL : String :=
  "SELECT COALESCE(s.closing_qty, 0) AS closing_qty FROM thirupathybright.Database_stockregister s LEFT JOIN thirupathybright.Database_sku sk ON s.sku_id = sk.id WHERE sk.is_blackbar = ?"

def barRejSQL : String :=
  "SELECT COALESCE(r.closing_qty, 0) AS closing_qty FROM thirupathybright.Database_rejectedstock r LEFT JOIN thirupathybright.Database_sku sk ON r.sku_id = sk.id WHERE sk.is_blackbar = ?"

def barQuarSQL : String :=
  "SELECT COALESCE(q.closing_qty, 0) AS closing_qty FROM thirupathybright.Database_quarantinestock q LEFT JOIN thirupathybright.Database_sku sk ON q.sku_id = sk.id WHERE sk.is_blackbar = ?"

structure BarTotals where
  reg : ℚ
  rej : ℚ
  quar : ℚ

/-- `fetchBarTotals` (sqlAgent.js lines 189-209): the three stock tables are
queried in parallel on disjoint tables and merged by name, so the sequential
model is equivalent. -/
def fetchBarTotals (drv : Driver) (barFlag : ℚ) : BarTotals :=
  let regRes := (executeQuery drv barRegSQL [.num barFlag]).1
  let rejRes := (executeQuery drv barRejSQL [.num barFlag]).1
  let quarRes := (executeQuery drv barQuarSQL [.num barFlag]).1
  { reg := sumQty regRes.rows, rej := sumQty rejRes.rows, quar := sumQty quarRes.rows }

/-- The direct-reply text of the bar-type fast-path (sqlAgent.js 211-252). -/
def barPathOut (drv : Driver) (fmt : NumFmt) (q : String) : String :=
  if barGrandBranch q then
    let black := fetchBarTotals drv 1
    let bright := fetchBarTotals drv 0
    let blackTotal := black.reg + black.rej + black.quar
    let brightTotal := bright.reg + bright.rej + bright.quar
    let grandTotal := blackTotal + brightTotal
    "Total Stock Summary:\n" ++ hr30 ++ "\n\n" ++
    "Black Bar:\n" ++
    "  Regular Stock    : " ++ fmt.locale black.reg ++ "\n" ++
    "  Rejected Stock   : " ++ fmt.locale black.rej ++ "\n" ++
    "  Quarantine Stock : " ++ fmt.locale black.quar ++ "\n" ++
    "  Sub-Total        : " ++ fmt.locale blackTotal ++ "\n\n" ++
    "Bright Bar:\n" ++
    "  Regular Stock    : " ++ fmt.locale bright.reg ++ "\n" ++
    "  Rejected Stock   : " ++ fmt.locale bright.rej ++ "\n" ++
    "  Quarantine Stock : " ++ fmt.locale bright.quar ++ "\n" ++
    "  Sub-Total        : " ++ fmt.locale brightTotal ++ "\n\n" ++
    hr30 ++ "\n" ++
    "Grand Total        : " ++ fmt.locale grandTotal ++ "\n"
  else
    let t := fetchBarTotals drv ((barFlagOf q : ℚ))
    let total := t.reg + t.rej + t.quar
    let barLabel := if hasBlackBar q then "Black Bar" else "Bright Bar"
    barLabel ++ " Stock Summary:\n" ++ hr30 ++ "\n\n" ++
    "Regular Stock    : " ++ fmt.locale t.reg ++ "\n" ++
    "Rejected Stock   : " ++ fmt.locale t.rej ++ "\n" ++
    "Quarantine Stock : " ++ fmt.locale t.quar ++ "\n" ++
    hr30 ++ "\n" ++
    "Total Stock      : " ++ fmt.locale total ++ "\n"

/-- The bar-type fast-path's returned result (sqlAgent.js lines 254-261). -/
def barPathResult (drv : Driver) (fmt : NumFmt) (q : String) : NLResult :=
  { success := true, query := some "bartype-stock", data := [], count := 0,
    error := none, directReply := some (barPathOut drv fmt q) }

def ppSQL : String :=
  "SELECT\n" ++
  "  p.*,\n" ++
  "  c.customer_name,\n" ++
  "  CONCAT(g.name, ' - ', cond.name, ' - ', sh.name, ' - ', sz.name) AS sku\n" ++
  "FROM thirupathybright.Database_production p\n" ++
  "LEFT JOIN thirupathybright.mastercustomer c ON p.customer_id = c.id\n" ++
  "LEFT JOIN thirupathybright.Database_grade g ON p.grade_id = g.id\n" ++
  "LEFT JOIN thirupathybright.Database_condition cond ON p.condition_id = cond.id\n" ++
  "LEFT JOIN thirupathybright.Database_shape sh ON p.shape_id = sh.id\n" ++
  "LEFT JOIN thirupathybright.Database_size sz ON p.finish_metal_size_id = sz.id\n" ++
  "WHERE UPPER(p.ppno) = ? OR UPPER(p.ppno) LIKE ? OR UPPER(p.ppnoreference) = ? OR UPPER(p.ppnoreference) LIKE ?"

/-- The not-found direct reply of the PP fast-path (sqlAgent.js 291-298). -/
def ppNotFoundResult (ppno : String) : NLResult :=
  { success := true, query := some ppSQL, data := [], count := 0, error := none,
    directReply := some ("Production plan " ++ ppno ++
      " not found.\nPlease check the PP number and try again.") }

/-- The bound parameters of the PP lookup: `[ppno, ppnoLike, ppno, ppnoLike]`
(sqlAgent.js line 287). -/
def ppParams (ppno : String) : List JsVal :=
  [.str ppno, .str (ppnoLike ppno), .str ppno, .str (ppnoLike ppno)]

/-- The PP-number fast-path (sqlAgent.js lines 266-311); `ppRaw` is the raw
regex capture, `normalizePpno ppRaw` the path's `ppno`. -/
def ppPathResult (drv : Driver) (q : String) (ppRaw : List Char) : NLResult :=
  if !(executeQuery drv ppSQL (ppParams (normalizePpno ppRaw))).1.success ||
      (executeQuery drv ppSQL (ppParams (normalizePpno ppRaw))).1.count = 0 then
    ppNotFoundResult (normalizePpno ppRaw)
  else
    { success := (executeQuery drv ppSQL (ppParams (normalizePpno ppRaw))).1.success,
      query := some ppSQL,
      data := (executeQuery drv ppSQL (ppParams (normalizePpno ppRaw))).1.rows,
      count := (executeQuery drv ppSQL (ppParams (normalizePpno ppRaw))).1.count,
      error := (executeQuery drv ppSQL (ppParams (normalizePpno ppRaw))).1.error,
      isProductionQuery := true, statusContext := some q, ppLookup := true }

/-- `statusClause` of the production fast-path (sqlAgent.js lines 321-327). -/
def statusClauseOf (q : String) : String :=
  if wantsCompleted q then "p.status = 'completed'"
  else if wantsCancelled q then "p.status = 'cancelled'"
  else "p.status IN ('pending', 'in_progress')"

/-- `prodCustomerClause` (sqlAgent.js lines 329-336). -/
def prodCustomerClauseOf (customers : List Customer) (q : String) : String :=
  match findCustomerInQuestion customers q with
  | some m =>
    " AND p.customer_id IN (" ++
    String.intercalate ", " (m.customers.map (fun c => toString c.id)) ++ ")"
  | none => ""

/-- `prodSQL` (sqlAgent.js lines 338-350). -/
def prodSQL (customers : List Customer) (q : String) : String :=
  "SELECT\n" ++
  "  p.*,\n" ++
  "  c.customer_name,\n" ++
  "  CONCAT(g.name, ' - ', cond.name, ' - ', sh.name, ' - ', sz.name) AS sku\n" ++
  "FROM thirupathybright.Database_production p\n" ++
  "LEFT JOIN thirupathybright.mastercustomer c ON p.customer_id = c.id\n" ++
  "LEFT JOIN thirupathybright.Database_grade g ON p.grade_id = g.id\n" ++
  "LEFT JOIN thirupathybright.Database_condition cond ON p.condition_id = cond.id\n" ++
  "LEFT JOIN thirupathybright.Database_shape sh ON p.shape_id = sh.id\n" ++
  "LEFT JOIN thirupathybright.Database_size sz ON p.finish_metal_size_id = sz.id\n" ++
  "WHERE " ++ statusClauseOf q ++ prodCustomerClauseOf customers q ++ "\n" ++
  "ORDER BY p.created_at DESC"

/-- The production fast-path (sqlAgent.js lines 318-363). -/
def prodPathResult (drv : Driver) (customers : List Customer) (q : String) : NLResult :=
  { success := (executeQuery drv (prodSQL customers q) []).1.success,
    query := some (prodSQL customers q),
    data := (executeQuery drv (prodSQL customers q) []).1.rows,
    count := (executeQuery drv (prodSQL customers q) []).1.count,
    error := (executeQuery drv (prodSQL customers q) []).1.error,
    isProductionQuery := true, statusContext := some q }

def stockRegSQL : String :=
  "SELECT s.*, sk.skuname FROM thirupathybright.Database_stockregister s LEFT JOIN thirupathybright.Database_sku sk ON s.sku_id = sk.id WHERE LOWER(sk.skuname) LIKE LOWER(?)"

def stockRejSQL : String :=
  "SELECT r.*, sk.skuname FROM thirupathybright.Database_rejectedstock r LEFT JOIN thirupathybright.Database_sku sk ON r.sku_id = sk.id WHERE LOWER(sk.skuname) LIKE LOWER(?)"

def stockQuarSQL : String :=
  "SELECT q.*, sk.skuname FROM thirupathybright.Database_quarantinestock q LEFT JOIN thirupathybright.Database_sku sk ON q.sku_id = sk.id WHERE LOWER(sk.skuname) LIKE LOWER(?)"

/-- `{ ...r, _stockSource: source }`: the spread copies the row and the new
property wins, which first-binding-wins lookup models by prepending. -/
def tagRows (rows : List Row) (source : String) : List Row :=
  rows.map (fun r => ("_stockSource", JsVal.str source) :: r)

/-- The stock fast-path (sqlAgent.js lines 390-427). -/
def stockPathResult (drv : Driver) (q : String) : NLResult :=
  let skuKeyword := strippedQuestion q
  let likeParam := [JsVal.str ("%" ++ skuKeyword ++ "%")]
  let regRes := (executeQuery drv stockRegSQL likeParam).1
  let rejRes := (executeQuery drv stockRejSQL likeParam).1
  let quarRes := (executeQuery drv stockQuarSQL likeParam).1
  let combined := tagRows regRes.rows "regular" ++ tagRows rejRes.rows "rejected" ++
    tagRows quarRes.rows "quarantine"
  { success := true, query := some "combined-stock", data := combined,
    count := combined.length, error := none, isStockQuery := true }

/- ─────────────── AI path: schema description and prompt construction ─────────────── -/

structure SchemaColumn where
  name : String
  colType : String
  nullable : Bool
  key : String
  colDefault : Option String
deriving DecidableEq

/-- The result of `getDatabaseSchema` (sqlAgent.js 29-72): table name to
column descriptors. The DESCRIBE round-trips are database introspection, so
the embedding takes the fetched schema as a parameter; `none` one level up
stands for the catch-to-null on fetch failure. -/
structure DBSchema where
  database : String
  tables : List (String × List SchemaColumn)
deriving DecidableEq

def describeColumn (col : SchemaColumn) : String :=
  "  - " ++ col.name ++ " (" ++ col.colType ++ ")" ++
  (if col.key = "PRI" then " PRIMARY KEY" else "") ++
  (if col.key = "MUL" then " FOREIGN KEY" else "") ++ "\n"

/-- The static tail of `buildSchemaDescription` (sqlAgent.js lines 623-678). -/
def schemaStaticTail : String :=
  "\nTABLE RELATIONSHIPS:\n" ++
  "- Database_orderregister.customer_id -> mastercustomer.id\n" ++
  "- Database_orderregister.grade_id -> Database_grade.id\n" ++
  "- Database_orderregister.condition_id -> Database_condition.id\n" ++
  "- Database_orderregister.shape_id -> Database_shape.id\n" ++
  "- Database_orderregister.size_id -> Database_size.id\n" ++
  "- Database_orderregister.id -> Database_despatch.order_no_id\n" ++
  "- Database_despatch.despatchno -> Database_weightment.despatch_no\n" ++
  "- Database_despatch.despatchno -> Database_despatchinvoice.despatch_no\n" ++
  "- Database_stockregister.sku_id -> Database_sku.id\n" ++
  "- Database_rejectedstock.sku_id -> Database_sku.id\n" ++
  "- Database_quarantinestock.sku_id -> Database_sku.id\n" ++
  "- Database_production.customer_id -> mastercustomer.id\n" ++
  "- Database_production.grade_id -> Database_grade.id\n" ++
  "- Database_production.condition_id -> Database_condition.id\n" ++
  "- Database_production.shape_id -> Database_shape.id\n" ++
  "- Database_production.finish_metal_size_id -> Database_size.id\n" ++
  "\n" ++
  "SKU FORMAT: The SKU for an order or production record is built as:\n" ++
  "  CONCAT(g.name, ' - ', cond.name, ' - ', sh.name, ' - ', sz.name)\n" ++
  "where g = Database_grade, cond = Database_condition, sh = Database_shape, sz = Database_size\n" ++
  "\n" ++
  "PRODUCTION STATUS LABELS:\n" ++
  "- status = 'pending'     -> display as \"Production Not Approved\"\n" ++
  "- status = 'in_progress' -> display as \"Production Not Approved\"\n" ++
  "- status = 'completed'   -> display as \"Completed\"\n" ++
  "- status = 'cancelled'   -> display as \"Cancelled\"\n" ++
  "By default (when user asks for production pending), show status IN ('pending','in_progress') — both shown as \"Production Not Approved\".\n" ++
  "Only show completed or cancelled when the user explicitly asks for them.\n" ++
  "\n" ++
  "IMPORTANT: Use correct table name capitalization:\n" ++
  "- Database_despatch (capital D)\n" ++
  "- Database_despatchinvoice (capital D)\n" ++
  "- Database_orderregister (capital D)\n" ++
  "- Database_weightment (capital D)\n" ++
  "- mastercustomer (lowercase m)\n" ++
  "- Database_sku (capital D)\n" ++
  "- Database_stockregister (capital D)\n" ++
  "- Database_rejectedstock (capital D)\n" ++
  "- Database_quarantinestock (capital D)\n" ++
  "- Database_grade (capital D)\n" ++
  "- Database_condition (capital D)\n" ++
  "- Database_shape (capital D)\n" ++
  "- Database_size (capital D)\n" ++
  "- Database_production (capital D)\n" ++
  "\n" ++
  "COMMON QUERIES:\n" ++
  "- Order by number: SELECT from Database_orderregister WHERE order_number = ?\n" ++
  "- Customer orders: JOIN Database_orderregister with mastercustomer\n" ++
  "- Dispatch details: JOIN Database_despatch with Database_weightment and Database_despatchinvoice\n" ++
  "- Order status: pending, in_progress, completed\n" ++
  "- SKU list: SELECT from thirupathybright.Database_sku\n" ++
  "- Regular stock: JOIN Database_stockregister with Database_sku on sku_id (closing_qty or closing_stock column)\n" ++
  "- Rejected stock: JOIN Database_rejectedstock with Database_sku on sku_id\n" ++
  "- Quarantine stock: JOIN Database_quarantinestock with Database_sku on sku_id\n"

/-- `buildSchemaDescription` (sqlAgent.js lines 607-681). -/
def buildSchemaDescription (schema : DBSchema) : String :=
  (schema.tables.foldl (fun d t =>
    d ++ "\nTable: " ++ t.1 ++ "\n" ++ "Columns:\n" ++
    t.2.foldl (fun acc col => acc ++ describeColumn col) "") "") ++
  schemaStaticTail

/-- `keyword.replace(/'/g, "''")`: escape by doubling single quotes. -/
def escapeSq (v : String) : String :=
  String.mk (v.data.foldr (fun c acc => if c = '\'' then '\'' :: '\'' :: acc else c :: acc) [])

/-- The single-scope WHERE clause of the security filter (sqlAgent.js 461). -/
def mpClauseSingle (v : String) : String :=
  "WHERE marketing_person = '" ++ escapeSq v ++ "'"

/-- The multi-scope WHERE clause of the security filter (sqlAgent.js 467-470). -/
def mpClauseMulti (mps : List String) : String :=
  "WHERE marketing_person IN (" ++
  String.intercalate ", " (mps.map (fun mp => "'" ++ escapeSq mp ++ "'")) ++ ")"

/-- `marketingPersonFilter` (sqlAgent.js lines 454-475): empty without scope
values, and otherwise the CRITICAL SECURITY FILTER instruction block built
around the single (`=`) or multi (`IN`) clause. -/
def marketingPersonFilterOf (mpArray : List String) : String :=
  match mpArray with
  | [] => ""
  | [mp] =>
    "\n\nCRITICAL SECURITY FILTER:\nYou MUST add this WHERE clause to ALL queries involving Database_orderregister:\n" ++
    mpClauseSingle mp ++
    "\n\nThis user can ONLY see orders assigned to marketing person: " ++ mp ++
    "\nAlways include this filter in your SQL queries. This is a security requirement."
  | mps =>
    "\n\nCRITICAL SECURITY FILTER:\nYou MUST add this WHERE clause to ALL queries involving Database_orderregister:\n" ++
    mpClauseMulti mps ++
    "\n\nThis user can ONLY see orders assigned to these marketing persons: " ++
    String.intercalate ", " mps ++
    "\nAlways include this filter in your SQL queries. This is a security requirement."

/-- `customerIdFilter` (sqlAgent.js lines 438-452). -/
def customerIdFilterOf (customers : List Customer) (q : String) : String :=
  match findCustomerInQuestion customers q with
  | none => ""
  | some m =>
    let idList := String.intercalate ", " (m.customers.map (fun c => toString c.id))
    let nameList := String.intercalate ", " (m.customers.map (fun c => c.customer_name))
    "\n\nCUSTOMER FILTER (pre-resolved from database):\nThe question refers to customer keyword \"" ++
    m.keyword ++ "\".\nMatched customers in mastercustomer: " ++ nameList ++
    "\nTheir customer IDs are: " ++ idList ++
    "\nYou MUST filter orders using: o.customer_id IN (" ++ idList ++
    ")\nDo NOT use LIKE on customer_name - use the customer_id IN filter instead."

/-- The IMPORTANT RULES block and everything after it in the system prompt
(sqlAgent.js lines 483-545). -/
def importantRules : String :=
  "\n\nIMPORTANT RULES:\n" ++
  "1. ONLY generate SELECT queries (no INSERT, UPDATE, DELETE)\n" ++
  "2. Always use fully qualified table names: thirupathybright.table_name\n" ++
  "3. Use JOINs when data from multiple tables is needed\n" ++
  "4. For order lookup: ALWAYS SELECT ALL FIELDS (o.*) from Database_orderregister and include customer name and SKU\n" ++
  "5. For customer info: JOIN with mastercustomer to get customer_name\n" ++
  "5a. For SKU: ALWAYS JOIN Database_grade, Database_condition, Database_shape, Database_size and build:\n" ++
  "    CONCAT(g.name, ' - ', cond.name, ' - ', sh.name, ' - ', sz.name) AS sku\n" ++
  "6. For dispatch tracking: Use subqueries or JOINs to calculate:\n" ++
  "   - Total dispatched quantity: SUM of weightment_weight from Database_weightment\n" ++
  "   - Remaining quantity: order quantity_kg - total dispatched\n" ++
  "   - Number of dispatches completed\n" ++
  "7. Field name mappings:\n" ++
  "   - Database_despatch has 'despatchno' (no underscore) - NOTE: Capital 'D'\n" ++
  "   - Database_weightment has 'despatch_no' (with underscore)\n" ++
  "   - Database_despatchinvoice has 'despatch_no' (with underscore) - NOTE: Capital 'D'\n" ++
  "8. For order status queries, include:\n" ++
  "   - ALL order fields (order_number, po_number, po_date, quantity_kg, rate, material, payment_terms, etc.)\n" ++
  "   - Customer name from mastercustomer\n" ++
  "   - Total dispatched weight\n" ++
  "   - Remaining quantity to dispatch\n" ++
  "   - Dispatch count\n" ++
  "9. Use LIMIT to prevent large result sets (max 50 rows)\n" ++
  "10. CUSTOMER NAME FILTERING: If a customer_id IN filter is provided above, use that. Otherwise if the\n" ++
  "    question mentions a company name, use: c.customer_name LIKE '%KEYWORD%' (case-insensitive).\n" ++
  "11. STOCK QUERIES - when the user asks about stock, inventory, closing stock, or SKU:\n" ++
  "    - For SKU list: SELECT * FROM thirupathybright.Database_sku\n" ++
  "    - For regular stock: JOIN Database_stockregister with Database_sku on sku_id\n" ++
  "    - For rejected stock: JOIN Database_rejectedstock with Database_sku on sku_id\n" ++
  "    - For quarantine stock: JOIN Database_quarantinestock with Database_sku on sku_id\n" ++
  "    - When filtering by SKU name/code, always use LIKE (case-insensitive): LOWER(sk.skuname) LIKE LOWER('%keyword%')\n" ++
  "    - The closing quantity column may be named closing_qty or closing_stock — use whichever exists per the schema above\n" ++
  "    - Do NOT apply marketing_person filter to stock/SKU tables (they are not order tables)\n" ++
  "    - Do NOT apply customer_id filter to stock/SKU tables (they are not order tables)\n" ++
  "12. STATUS RULE - CRITICAL:\n" ++
  "    - \"pending\" or \"pending orders\" means NOT completed and NOT cancelled.\n" ++
  "      Use: o.status IN ('pending', 'in_progress')\n" ++
  "    - \"in progress\" or \"in_progress\" means ONLY: o.status = 'in_progress'\n" ++
  "    - \"completed\" means ONLY: o.status = 'completed'\n" ++
  "    - Never use o.status = 'pending' alone when the user asks for pending orders.\n" ++
  "\n" ++
  "EXAMPLE for pending customer orders (includes in_progress):\n" ++
  "SELECT\n" ++
  "  o.*,\n" ++
  "  c.customer_name,\n" ++
  "  CONCAT(g.name, ' - ', cond.name, ' - ', sh.name, ' - ', sz.name) AS sku,\n" ++
  "  COALESCE(SUM(w.weightment_weight), 0) as total_dispatched,\n" ++
  "  (o.quantity_kg - COALESCE(SUM(w.weightment_weight), 0)) as remaining_qty,\n" ++
  "  COUNT(DISTINCT d.despatchno) as dispatch_count\n" ++
  "FROM thirupathybright.Database_orderregister o\n" ++
  "LEFT JOIN thirupathybright.mastercustomer c ON o.customer_id = c.id\n" ++
  "LEFT JOIN thirupathybright.Database_grade g ON o.grade_id = g.id\n" ++
  "LEFT JOIN thirupathybright.Database_condition cond ON o.condition_id = cond.id\n" ++
  "LEFT JOIN thirupathybright.Database_shape sh ON o.shape_id = sh.id\n" ++
  "LEFT JOIN thirupathybright.Database_size sz ON o.size_id = sz.id\n" ++
  "LEFT JOIN thirupathybright.Database_despatch d ON d.order_no_id = o.id\n" ++
  "LEFT JOIN thirupathybright.Database_weightment w ON w.despatch_no = d.despatchno\n" ++
  "WHERE o.status IN ('pending', 'in_progress')\n" ++
  "  AND o.customer_id IN (1929)\n" ++
  "GROUP BY o.id\n" ++
  "\n" ++
  "RESPONSE FORMAT:\n" ++
  "Return ONLY valid SQL query, nothing else. No explanations, no markdown, just SQL."

/-- `systemPrompt` (sqlAgent.js lines 478-545). -/
def systemPromptOf (mpFilter custFilter schemaDescription : String) : String :=
  "You are a SQL expert for Thirupathybright Industries database." ++ mpFilter ++ custFilter ++
  "\n\nDATABASE SCHEMA:\n" ++ schemaDescription ++ importantRules

/-- The single message content sent to the generation backend:
`systemPrompt + '\n\n' + userPrompt` (sqlAgent.js line 559). -/
def fullPromptOf (customers : List Customer) (schema : DBSchema) (q : String)
    (mpArray : List String) : String :=
  systemPromptOf (marketingPersonFilterOf mpArray) (customerIdFilterOf customers q)
    (buildSchemaDescription schema) ++
  "\n\n" ++ "Generate SQL query for: " ++ q

/- ─────────────── AI path: generated-SQL cleanup and execution ─────────────── -/

theorem stripPrefixCh_length {p l r : List Char} (h : stripPrefixCh p l = some r) :
    r.length + p.length = l.length := by
  induction p generalizing l r with
  | nil =>
    simp only [stripPrefixCh, Option.some_inj] at h
    subst h
    simp
  | cons a ps ih =>
    cases l with
    | nil => simp [stripPrefixCh] at h
    | cons c cs =>
      simp only [stripPrefixCh] at h
      by_cases hc : c = a
      · simp only [hc, if_pos rfl] at h
        have := ih h
        simp only [List.length_cons]
        omega
      · simp [hc] at h

/-- Global replacement of `pat` plus an optional following newline with the
empty string, scanning left to right without revisiting emitted characters —
JS `replace(new RegExp(pat + "\\n?"), "")` with the `g` flag.  The scanner
counts down the characters of a recognised occurrence (`skip`), and `nlPending`
records that the optional newline may still be consumed. -/
def removePatNlGo (pat : List Char) : Nat → Bool → List Char → List Char
  | 0, false, [] => []
  | 0, false, c :: rest =>
    match stripPrefixCh pat (c :: rest) with
    | some _ => removePatNlGo pat (pat.length - 1) true rest
    | none => c :: removePatNlGo pat 0 false rest
  | 0, true, [] => []
  | 0, true, c :: rest =>
    if c = '\n' then removePatNlGo pat 0 false rest
    else
      match stripPrefixCh pat (c :: rest) with
      | some _ => removePatNlGo pat (pat.length - 1) true rest
      | none => c :: removePatNlGo pat 0 false rest
  | n + 1, b, [] => []
  | n + 1, b, c :: rest => removePatNlGo pat n b rest

def removePatNl (pat : List Char) (l : List Char) : List Char :=
  removePatNlGo pat 0 false l

/-- `sqlQuery.replace(/```sql\n?/g, '').replace(/```\n?/g, '').trim()`
(sqlAgent.js line 577). -/
def cleanFences (s : String) : String :=
  jsTrim (String.mk (removePatNl "```".data (removePatNl "```sql".data s.data)))

/-- Match `LIMIT\s+\d+\b` at the head (the `\b` before is the caller's),
for `/\bLIMIT\s+\d+\b/gi`; returns the length of the match. -/
def limitMatchLen (l : List Char) : Option Nat :=
  match l with
  | a :: b :: c :: d :: e :: rest =>
    if lowerChars [a, b, c, d, e] = "limit".data then
      let ws := rest.takeWhile isJsWS
      if ws.isEmpty then none
      else
        let r1 := rest.dropWhile isJsWS
        let ds := r1.takeWhile Char.isDigit
        if ds.isEmpty then none
        else
          match r1.dropWhile Char.isDigit with
          | [] => some (5 + ws.length + ds.length)
          | x :: _ => if isWordChar x then none else some (5 + ws.length + ds.length)
    else none
  | _ => none

/-- Global replacement of `/\bLIMIT\s+\d+\b/gi` with the empty string
(sqlAgent.js line 580): `skip` counts down a recognised occurrence's remaining
characters; `prevW` tracks whether the previous character of the original
string was a word character (after a removal it was the number's last digit,
a word character). -/
def stripLimitGo : Nat → Bool → List Char → List Char
  | 0, _, [] => []
  | 0, prevW, c :: rest =>
    match (if prevW then none else limitMatchLen (c :: rest)) with
    | some k => stripLimitGo (k - 1) true rest
    | none => c :: stripLimitGo 0 (isWordChar c) rest
  | _ + 1, _, [] => []
  | n + 1, b, _ :: rest => stripLimitGo n b rest

def stripLimit (s : String) : String := String.mk (stripLimitGo 0 false s.data)

/-- `replace(/;\s*$/, '')`: remove a final semicolon-then-whitespace run. -/
def stripTrailingSemi (s : String) : String :=
  match (s.data.reverse.dropWhile isJsWS) with
  | ';' :: r2 => String.mk r2.reverse
  | _ => s

/-- The generation-backend oracle, standing for the `fetch` call plus JSON
field extraction (sqlAgent.js lines 550-570): an `Except.error` is the
message of the error thrown for a network failure or non-2xx response, `ok
none` a response without `choices[0].message.content`, and `ok (some text)`
the returned completion text. -/
abbrev AiOracle := String → Except String (Option String)

/-- The cleanup of the generated SQL (sqlAgent.js lines 577-580): strip
Markdown code fences, trim, strip any LIMIT clause, trim, strip a trailing
semicolon. -/
def aiCleanedSql (sq0 : String) : String :=
  stripTrailingSemi (jsTrim (stripLimit (cleanFences sq0)))

/-- The language-model path of `queryFromNaturalLanguage` (sqlAgent.js lines
429-593), as the `Except` of its possible throws: schema fetch failure, a
generation-backend error, or an empty completion. -/
def aiPathResult (drv : Driver) (customers : List Customer)
    (schemaOpt : Option DBSchema) (ai : AiOracle) (q : String)
    (mpArray : List String) : Except String NLResult :=
  match schemaOpt with
  | none => .error "Failed to get database schema"
  | some schema =>
    match ai (fullPromptOf customers schema q mpArray) with
    | .error e => .error e
    | .ok content =>
      match content.map jsTrim with
      | none => .error "No SQL query generated"
      | some sq0 =>
        if sq0 = "" then .error "No SQL query generated"
        else
          .ok { success := (executeQuery drv (aiCleanedSql sq0) []).1.success,
                query := some (aiCleanedSql sq0),
                data := (executeQuery drv (aiCleanedSql sq0) []).1.rows,
                count := (executeQuery drv (aiCleanedSql sq0) []).1.count,
                error := (executeQuery drv (aiCleanedSql sq0) []).1.error }

/-- `SQLAgent.queryFromNaturalLanguage` (sqlAgent.js lines 165-604).
`mpArray` is the marketing-person argument already normalised to an array
(the JS wraps a lone string, lines 168-171); `fmt` stands for the
locale-dependent number renderings. Anything thrown inside the body is caught
into the `success:false` shape of lines 595-603. -/
def qfnlBody (drv : Driver) (customers : List Customer)
    (schemaOpt : Option DBSchema) (ai : AiOracle) (fmt : NumFmt)
    (userQuestion : String) (mpArray : List String) : Except String NLResult :=
  if barTypeTriggers userQuestion then .ok (barPathResult drv fmt userQuestion)
  else
    match ppFind userQuestion with
    | some ppRaw => .ok (ppPathResult drv userQuestion ppRaw)
    | none =>
      if isProductionQuery userQuestion then
        .ok (prodPathResult drv customers userQuestion)
      else if stockTriggers userQuestion then
        .ok (stockPathResult drv userQuestion)
      else
        aiPathResult drv customers schemaOpt ai userQuestion mpArray

def queryFromNaturalLanguage (drv : Driver) (customers : List Customer)
    (schemaOpt : Option DBSchema) (ai : AiOracle) (fmt : NumFmt)
    (userQuestion : String) (mpArray : List String) : NLResult :=
  match qfnlBody drv customers schemaOpt ai fmt userQuestion mpArray with
  | .ok r => r
  | .error e => { success := false, error := some e, data := [], count := 0 }

/- ─────────────── substring lemmas for the prompt instruction ─────────────── -/

theorem stripPrefixCh_self_append (needle suf : List Char) :
    stripPrefixCh needle (needle ++ suf) = some suf := by
  induction needle with
  | nil => rfl
  | cons c cs ih => simp [stripPrefixCh, ih]

theorem containsSub_append (needle pre suf : List Char) :
    containsSub needle (pre ++ (needle ++ suf)) = true := by
  induction pre with
  | nil =>
    simp only [List.nil_append]
    cases needle with
    | nil =>
      cases suf with
      | nil => rfl
      | cons c r => simp [containsSub, stripPrefixCh]
    | cons n ns =>
      have h := stripPrefixCh_self_append (n :: ns) suf
      simp only [List.cons_append] at h
      simp [containsSub, h]
  | cons p ps ih =>
    simp only [List.cons_append]
    simp [containsSub, ih]

theorem containsSub_infix {needle hay : List Char} (pre suf : List Char)
    (h : hay = pre ++ (needle ++ suf)) : containsSub needle hay = true := by
  subst h
  exact containsSub_append needle pre suf

/-- C2 amended. The security-filter instruction built into the generation
prompt is exactly the claimed clause: with one scope value `v` it is
`marketing_person = 'v'`, with several `marketing_person IN ('v1', 'v2', ...)`,
each value escaped by doubling single quotes; and whenever scope values are
given, the prompt handed to the generation backend contains that instruction
block. (The second half of the original claim — that every synthesized query
touching the order table contains the clause — is not enforced by the code:
see the counterexample, where the generated SQL is executed unchecked.) -/
theorem mp_filter_instruction_amended :
    (∀ v : String, mpClauseSingle v = "WHERE marketing_person = '" ++ escapeSq v ++ "'") ∧
    (∀ mps : List String, mpClauseMulti mps =
      "WHERE marketing_person IN (" ++
      String.intercalate ", " (mps.map (fun mp => "'" ++ escapeSq mp ++ "'")) ++ ")") ∧
    (escapeSq "O'Brien" = "O''Brien") ∧
    (∀ v : String, containsSub (mpClauseSingle v).data (marketingPersonFilterOf [v]).data = true) ∧
    (∀ v1 v2 : String, ∀ rest : List String,
      containsSub (mpClauseMulti (v1 :: v2 :: rest)).data
        (marketingPersonFilterOf (v1 :: v2 :: rest)).data = true) ∧
    (∀ (customers : List Customer) (schema : DBSchema) (q : String) (mpArray : List String),
      containsSub (marketingPersonFilterOf mpArray).data
        (fullPromptOf customers schema q mpArray).data = true) := by
  refine ⟨fun v => rfl, fun mps => rfl, by decide, ?_, ?_, ?_⟩
  · intro v
    exact containsSub_infix
      ("\n\nCRITICAL SECURITY FILTER:\nYou MUST add this WHERE clause to ALL queries involving Database_orderregister:\n").data
      (("\n\nThis user can ONLY see orders assigned to marketing person: " ++ v ++
        "\nAlways include this filter in your SQL queries. This is a security requirement.").data)
      (by simp only [marketingPersonFilterOf, String.data_append, List.append_assoc])
  · intro v1 v2 rest
    exact containsSub_infix
      ("\n\nCRITICAL SECURITY FILTER:\nYou MUST add this WHERE clause to ALL queries involving Database_orderregister:\n").data
      (("\n\nThis user can ONLY see orders assigned to these marketing persons: " ++
        String.intercalate ", " (v1 :: v2 :: rest) ++
        "\nAlways include this filter in your SQL queries. This is a security requirement.").data)
      (by simp only [marketingPersonFilterOf, String.data_append, List.append_assoc])
  · intro customers schema q mpArray
    exact containsSub_infix
      ("You are a SQL expert for Thirupathybright Industries database.").data
      ((customerIdFilterOf customers q ++
        ("\n\nDATABASE SCHEMA:\n" ++ (buildSchemaDescription schema ++ (importantRules ++
        ("\n\n" ++ ("Generate SQL query for: " ++ q)))))).data)
      (by simp only [fullPromptOf, systemPromptOf, String.data_append, List.append_assoc])

def fmtNull : NumFmt := ⟨fun _ => "", fun _ => ""⟩

def aiNone : AiOracle := fun _ => .ok none

def drvOrderRow : Driver := fun _ _ =>
  .ok [[("order_number", JsVal.str "ORD-1"), ("marketing_person", JsVal.str "Bob")]]

def aiOrderSql : AiOracle := fun _ =>
  .ok (some "SELECT * FROM thirupathybright.Database_orderregister")

def schemaEmpty : DBSchema := ⟨"thirupathybright", []⟩

/-- C2 counterexample: with scope value Alice, a generation backend that
returns an order-table query without any scope clause is executed unchanged
and successfully — the synthesized SQL string touches the order table yet
contains no `marketing_person = 'Alice'` clause, so the claimed property of
the generated SQL string does not hold. -/
theorem scope_clause_not_enforced_cex :
    (queryFromNaturalLanguage drvOrderRow [] (some schemaEmpty) aiOrderSql fmtNull
      "list my orders please" ["Alice"]).success = true ∧
    (queryFromNaturalLanguage drvOrderRow [] (some schemaEmpty) aiOrderSql fmtNull
      "list my orders please" ["Alice"]).query =
      some "SELECT * FROM thirupathybright.Database_orderregister" ∧
    containsSub "Database_orderregister".data
      "SELECT * FROM thirupathybright.Database_orderregister".data = true ∧
    containsSub (mpClauseSingle "Alice").data
      "SELECT * FROM thirupathybright.Database_orderregister".data = false ∧
    containsSub "marketing_person = 'Alice'".data
      "SELECT * FROM thirupathybright.Database_orderregister".data = false := by
  refine ⟨by decide, by decide, by decide, by decide, by decide⟩

/- ─────────────── C4: failure shapes of the query entry points ─────────────── -/

theorem barPathResult_success (drv : Driver) (fmt : NumFmt) (q : String) :
    (barPathResult drv fmt q).success = true := rfl

theorem stockPathResult_success (drv : Driver) (q : String) :
    (stockPathResult drv q).success = true := rfl

theorem ppPathResult_success (drv : Driver) (q : String) (raw : List Char) :
    (ppPathResult drv q raw).success = true := by
  unfold ppPathResult
  split
  · rfl
  · rename_i h
    cases hs : (executeQuery drv ppSQL (ppParams (normalizePpno raw))).1.success
    · exfalso
      apply h
      rw [hs]
      rfl
    · rfl

theorem prodPathResult_shape (drv : Driver) (customers : List Customer) (q : String)
    (h : (prodPathResult drv customers q).success = false) :
    (prodPathResult drv customers q).data = [] ∧
    (prodPathResult drv customers q).count = 0 ∧
    ((prodPathResult drv customers q).error).isSome = true := by
  unfold prodPathResult at h ⊢
  dsimp only at h ⊢
  exact executeQuery_failure_shape drv (prodSQL customers q) [] h

theorem aiPathResult_ok_shape (drv : Driver) (customers : List Customer)
    (schemaOpt : Option DBSchema) (ai : AiOracle) (q : String) (mpArray : List String)
    (r : NLResult)
    (heq : aiPathResult drv customers schemaOpt ai q mpArray = .ok r)
    (h : r.success = false) :
    r.data = [] ∧ r.count = 0 ∧ (r.error).isSome = true := by
  unfold aiPathResult at heq
  cases schemaOpt with
  | none => simp at heq
  | some schema =>
    simp only at heq
    cases hai : ai (fullPromptOf customers schema q mpArray) with
    | error e => rw [hai] at heq; simp at heq
    | ok content =>
      rw [hai] at heq
      cases content with
      | none => simp at heq
      | some c =>
        simp only [Option.map] at heq
        split at heq
        · exact absurd heq (by simp)
        · rw [Except.ok.injEq] at heq
          subst heq
          dsimp only at h ⊢
          exact executeQuery_failure_shape drv (aiCleanedSql (jsTrim c)) [] h

theorem qfnl_failure_shape (drv : Driver) (customers : List Customer)
    (schemaOpt : Option DBSchema) (ai : AiOracle) (fmt : NumFmt)
    (q : String) (mpArray : List String)
    (h : (queryFromNaturalLanguage drv customers schemaOpt ai fmt q mpArray).success = false) :
    (queryFromNaturalLanguage drv customers schemaOpt ai fmt q mpArray).data = [] ∧
    (queryFromNaturalLanguage drv customers schemaOpt ai fmt q mpArray).count = 0 ∧
    ((queryFromNaturalLanguage drv customers schemaOpt ai fmt q mpArray).error).isSome = true := by
  unfold queryFromNaturalLanguage at h ⊢
  cases hbody : qfnlBody drv customers schemaOpt ai fmt q mpArray with
  | error e =>
    exact ⟨rfl, rfl, rfl⟩
  | ok r =>
    rw [hbody] at h
    simp only at h ⊢
    unfold qfnlBody at hbody
    split at hbody
    · rw [Except.ok.injEq] at hbody
      subst hbody
      rw [barPathResult_success] at h
      exact absurd h (by simp)
    · split at hbody
      · rw [Except.ok.injEq] at hbody
        subst hbody
        rw [ppPathResult_success] at h
        exact absurd h (by simp)
      · split at hbody
        · rw [Except.ok.injEq] at hbody
          subst hbody
          exact prodPathResult_shape drv customers q h
        · split at hbody
          · rw [Except.ok.injEq] at hbody
            subst hbody
            rw [stockPathResult_success] at h
            exact absurd h (by simp)
          · exact aiPathResult_ok_shape drv customers schemaOpt ai q mpArray r hbody h

/-- C4 amended. Neither `executeQuery` nor `queryFromNaturalLanguage` throws:
each always returns a structured result, and whenever that result reports
failure (success = false) it carries an error message, an empty row list and
count 0. (The original claim's "on any failure" is too strong: a driver
error on the bar-type or PP-number fast-path is converted to a success:true
canned reply, not a success:false result — see the counterexample.) -/
theorem failure_result_shape_amended :
    (∀ (drv : Driver) (sql : String) (params : List JsVal),
      (executeQuery drv sql params).1.success = false →
      (executeQuery drv sql params).1.rows = [] ∧
      (executeQuery drv sql params).1.count = 0 ∧
      ((executeQuery drv sql params).1.error).isSome = true) ∧
    (∀ (drv : Driver) (customers : List Customer) (schemaOpt : Option DBSchema)
       (ai : AiOracle) (fmt : NumFmt) (q : String) (mpArray : List String),
      (queryFromNaturalLanguage drv customers schemaOpt ai fmt q mpArray).success = false →
      (queryFromNaturalLanguage drv customers schemaOpt ai fmt q mpArray).data = [] ∧
      (queryFromNaturalLanguage drv customers schemaOpt ai fmt q mpArray).count = 0 ∧
      ((queryFromNaturalLanguage drv customers schemaOpt ai fmt q mpArray).error).isSome = true) :=
  ⟨executeQuery_failure_shape, qfnl_failure_shape⟩

/-- Witness for C4's amended theorem at concrete inputs: a guard-rejected
query and a query whose schema fetch failed both yield the structured
failure shape. -/
theorem failure_result_shape_amended_witness :
    ((executeQuery drvOkEmpty "DELETE FROM x" []).1.success = false ∧
     (executeQuery drvOkEmpty "DELETE FROM x" []).1.rows = [] ∧
     (executeQuery drvOkEmpty "DELETE FROM x" []).1.count = 0 ∧
     ((executeQuery drvOkEmpty "DELETE FROM x" []).1.error).isSome = true) ∧
    ((queryFromNaturalLanguage drvOkEmpty [] none aiNone fmtNull "what is happening here" []).success = false ∧
     (queryFromNaturalLanguage drvOkEmpty [] none aiNone fmtNull "what is happening here" []).data = [] ∧
     (queryFromNaturalLanguage drvOkEmpty [] none aiNone fmtNull "what is happening here" []).count = 0 ∧
     ((queryFromNaturalLanguage drvOkEmpty [] none aiNone fmtNull "what is happening here" []).error).isSome = true) := by
  constructor
  · have h1 : (executeQuery drvOkEmpty "DELETE FROM x" []).1.success = false := by decide
    exact ⟨h1, failure_result_shape_amended.1 _ _ _ h1⟩
  · have h2 : (queryFromNaturalLanguage drvOkEmpty [] none aiNone fmtNull
        "what is happening here" []).success = false := by decide
    exact ⟨h2, failure_result_shape_amended.2 _ _ _ _ _ _ _ h2⟩

def drvFail : Driver := fun _ _ => .error "SQL execution error"

/-- C4 counterexample: a driver error (every call fails) on the bar-type
fast-path does not reach the caller as success:false — the caller receives a
success:true result with no error, the zero-total canned summary. -/
theorem driver_error_masked_cex :
    drvFail barRegSQL [JsVal.num 1] = .error "SQL execution error" ∧
    (executeQuery drvFail barRegSQL [JsVal.num 1]).1.success = false ∧
    (queryFromNaturalLanguage drvFail [] none aiNone fmtNull "black bar stock" []).success = true ∧
    (queryFromNaturalLanguage drvFail [] none aiNone fmtNull "black bar stock" []).error = none := by
  refine ⟨rfl, by decide, by decide, by decide⟩

/- ───────────────────── C8: the bar-type stock fast-path ───────────────────── -/

/-- C8. The bar-type stock-totals fast-path triggers exactly when the
question matches `black\s*bar` and/or `bright\s*bar`, or matches the
total/grand/all-with-stock pattern with no bar-type word (`isGrandTotal`);
it takes the grand-total branch exactly when that grand pattern holds or
both bar words are present, and otherwise the single-bar branch with
`is_blackbar` flag 1 for black bar and 0 for bright bar; whenever it
triggers, `queryFromNaturalLanguage` returns the bar path's result.  The
question "bright bar total stock" takes the single Bright Bar branch with
flag 0. -/
theorem barType_trigger_branch_flag :
    (∀ q : String, classify q = FastPath.barType ↔
      (hasBlackBar q = true ∨ hasBrightBar q = true ∨ isGrandTotal q = true)) ∧
    (∀ q : String, barGrandBranch q = true ↔
      (isGrandTotal q = true ∨ (hasBlackBar q = true ∧ hasBrightBar q = true))) ∧
    (∀ q : String, hasBlackBar q = true → barFlagOf q = 1) ∧
    (∀ q : String, hasBlackBar q = false → barFlagOf q = 0) ∧
    (∀ (drv : Driver) (customers : List Customer) (schemaOpt : Option DBSchema)
       (ai : AiOracle) (fmt : NumFmt) (q : String) (mpArray : List String),
      barTypeTriggers q = true →
      queryFromNaturalLanguage drv customers schemaOpt ai fmt q mpArray =
        barPathResult drv fmt q) ∧
    (classify "bright bar total stock" = FastPath.barType ∧
     barGrandBranch "bright bar total stock" = false ∧
     barFlagOf "bright bar total stock" = 0) := by
  refine ⟨?_, ?_, ?_, ?_, ?_, by decide, by decide, by decide⟩
  · intro q
    constructor
    · intro h
      by_cases hb : barTypeTriggers q = true
      · have := hb
        simp only [barTypeTriggers, Bool.or_eq_true] at this
        tauto
      · exfalso
        simp only [Bool.not_eq_true] at hb
        unfold classify at h
        rw [hb] at h
        rw [if_neg Bool.false_ne_true] at h
        split at h
        · exact FastPath.noConfusion h
        · split at h
          · exact FastPath.noConfusion h
          · split at h
            · exact FastPath.noConfusion h
            · exact FastPath.noConfusion h
    · intro h
      have hb : barTypeTriggers q = true := by
        simp only [barTypeTriggers, Bool.or_eq_true]
        tauto
      unfold classify
      rw [hb, if_pos rfl]
  · intro q
    simp [barGrandBranch, Bool.or_eq_true, Bool.and_eq_true]
  · intro q h
    simp [barFlagOf, h]
  · intro q h
    simp [barFlagOf, h]
  · intro drv customers schemaOpt ai fmt q mpArray h
    unfold queryFromNaturalLanguage qfnlBody
    rw [h, if_pos rfl]

/- ───────────────────── C10: PP-path masking of driver errors ───────────────────── -/

/-- C10. On the PP-number fast-path, when the PP lookup's `executeQuery`
reports failure (or simply finds no row), `queryFromNaturalLanguage` still
returns the success:true "Production plan ... not found." direct reply with
count 0 and no error — a database execution error on this path is presented
to the caller identically to a genuinely missing PP number, and no
database-error result is produced. -/
theorem pp_db_error_masked_as_not_found (drv : Driver) (customers : List Customer)
    (schemaOpt : Option DBSchema) (ai : AiOracle) (fmt : NumFmt)
    (q : String) (mpArray : List String) (ppRaw : List Char)
    (hbar : barTypeTriggers q = false)
    (hpp : ppFind q = some ppRaw)
    (hfail : (executeQuery drv ppSQL (ppParams (normalizePpno ppRaw))).1.success = false ∨
             (executeQuery drv ppSQL (ppParams (normalizePpno ppRaw))).1.count = 0) :
    queryFromNaturalLanguage drv customers schemaOpt ai fmt q mpArray =
      ppNotFoundResult (normalizePpno ppRaw) ∧
    (ppNotFoundResult (normalizePpno ppRaw)).success = true ∧
    (ppNotFoundResult (normalizePpno ppRaw)).count = 0 ∧
    (ppNotFoundResult (normalizePpno ppRaw)).data = [] ∧
    (ppNotFoundResult (normalizePpno ppRaw)).error = none ∧
    (ppNotFoundResult (normalizePpno ppRaw)).directReply =
      some ("Production plan " ++ normalizePpno ppRaw ++
        " not found.\nPlease check the PP number and try again.") := by
  refine ⟨?_, rfl, rfl, rfl, rfl, rfl⟩
  have hcond : (!(executeQuery drv ppSQL (ppParams (normalizePpno ppRaw))).1.success ||
      decide ((executeQuery drv ppSQL (ppParams (normalizePpno ppRaw))).1.count = 0)) = true := by
    rcases hfail with hf | hf
    · rw [hf]
      rfl
    · rw [decide_eq_true hf, Bool.or_true]
  unfold queryFromNaturalLanguage qfnlBody
  rw [hbar, if_neg Bool.false_ne_true, hpp]
  dsimp only
  unfold ppPathResult
  rw [hcond, if_pos rfl]

def drvFail2 : Driver := fun _ _ => .error "connection lost"

/-- Witness for C10 at a concrete input: with a driver that fails every
call, "Pp-2602-1595 production plan data" yields the success:true not-found
reply for PP-2602-1595. -/
theorem pp_db_error_masked_as_not_found_witness :
    barTypeTriggers "Pp-2602-1595 production plan data" = false ∧
    ppFind "Pp-2602-1595 production plan data" = some "Pp-2602-1595".data ∧
    (executeQuery drvFail2 ppSQL (ppParams (normalizePpno "Pp-2602-1595".data))).1.success = false ∧
    queryFromNaturalLanguage drvFail2 [] none aiNone fmtNull
      "Pp-2602-1595 production plan data" [] = ppNotFoundResult "PP-2602-1595" := by
  have h1 : barTypeTriggers "Pp-2602-1595 production plan data" = false := by decide
  have h2 : ppFind "Pp-2602-1595 production plan data" = some "Pp-2602-1595".data := by decide
  have h3 : (executeQuery drvFail2 ppSQL
      (ppParams (normalizePpno "Pp-2602-1595".data))).1.success = false := by decide
  have h4 := (pp_db_error_masked_as_not_found drvFail2 [] none aiNone fmtNull
    "Pp-2602-1595 production plan data" [] "Pp-2602-1595".data h1 h2 (Or.inl h3)).1
  refine ⟨h1, h2, h3, ?_⟩
  rw [h4]
  decide

/- ──────────────── formatResultForAI (sqlAgent.js 689-903) ──────────────── -/

def closingQtyKeys : List String := ["closing_qty"]

/-- `pick` (sqlAgent.js lines 702-707): first defined non-null value among
the given property names. -/
def pickKeys (r : Row) (keys : List String) : Option JsVal :=
  keys.findSome? (fun k =>
    match getF r k with
    | some v => if v = JsVal.null then none else some v
    | none => none)

/-- First truthy value of a JS `r.a || r.b || ...` property chain. -/
def jsOrChain (r : Row) (keys : List String) : Option JsVal :=
  keys.findSome? (fun k => if jsTruthy (getF r k) then getF r k else none)

/-- A property rendered inside a JS template literal. -/
def displayProp (fmt : NumFmt) (r : Row) (k : String) : String :=
  match getF r k with
  | some v => displayVal fmt v
  | none => "undefined"

/-- `isStockResult` (sqlAgent.js line 710). -/
def isStockResultOf (result : NLResult) : Bool :=
  result.isStockQuery ||
  (match result.data.head? with
   | some r0 => closingQtyKeys.any (fun k => (getF r0 k).isSome)
   | none => false)

def stockSourceIs (r : Row) (s : String) : Bool :=
  match getF r "_stockSource" with
  | some (JsVal.str t) => t = s
  | _ => false

/-- `formatSection` (sqlAgent.js lines 718-731). -/
def formatSection (fmt : NumFmt) (rows : List Row) (label : String) : String :=
  if rows.isEmpty then ""
  else
    label ++ ":\n" ++
    rows.enum.foldl (fun sec p =>
      sec ++ "  " ++ toString (p.1 + 1) ++ ". " ++
      (match jsOrChain p.2 ["skuname", "sku_code", "sku_name", "name", "sku_id", "id"] with
       | some v => displayVal fmt v
       | none => "Item " ++ toString (p.1 + 1)) ++ "\n" ++
      (if jsTruthy (getF p.2 "unit") then
        "     Unit        : " ++ displayProp fmt p.2 "unit" ++ "\n" else "") ++
      (match pickKeys p.2 closingQtyKeys with
       | some v => "     Closing Qty : " ++ fmt.locale (jsNumber v) ++ "\n"
       | none => "") ++
      (if jsTruthy (getF p.2 "date") then
        "     Date        : " ++ displayProp fmt p.2 "date" ++ "\n" else "") ++
      "\n") ""

/-- The stock branch of `formatResultForAI` (sqlAgent.js lines 712-751). -/
def stockBranchOut (fmt : NumFmt) (result : NLResult) : String :=
  let data := result.data
  let regular := data.filter (fun r => !jsTruthy (getF r "_stockSource") || stockSourceIs r "regular")
  let rejected := data.filter (fun r => stockSourceIs r "rejected")
  let quarantine := data.filter (fun r => stockSourceIs r "quarantine")
  if regular.isEmpty && rejected.isEmpty && quarantine.isEmpty then
    "No data found for your query."
  else
    let skuHeader :=
      match data.head? with
      | some r0 =>
        (match jsOrChain r0 ["skuname", "sku_code", "sku_name", "name"] with
         | some v => displayVal fmt v
         | none => "")
      | none => ""
    let out :=
      (if skuHeader ≠ "" then "Stock for: " ++ skuHeader ++ "\n" else "Stock Summary:\n") ++
      hr30 ++ "\n\n" ++
      formatSection fmt regular "Regular Stock" ++
      formatSection fmt rejected "Rejected Stock" ++
      formatSection fmt quarantine "Quarantine Stock" ++
      (if regular.isEmpty && (!rejected.isEmpty || !quarantine.isEmpty) then
        "Regular Stock : No data\n\n" else "")
    "\n\n[DIRECT_REPLY:\n" ++ out ++ "]"

/-- `isProductionResult` (sqlAgent.js line 754). -/
def isProductionResultOf (result : NLResult) : Bool :=
  result.isProductionQuery ||
  (match result.data.head? with
   | some r0 => (getF r0 "ppno").isSome
   | none => false)

/-- `showingPending` (sqlAgent.js lines 757-760). -/
def showingPendingOf (result : NLResult) : Bool :=
  !result.ppLookup && !wantsCompleted (result.statusContext.getD "") &&
  !wantsCancelled (result.statusContext.getD "")

/-- `statusLabel` (sqlAgent.js lines 762-768). -/
def prodStatusLabel (fmt : NumFmt) (showingPending : Bool) (s : Option JsVal) : String :=
  match s with
  | some (JsVal.str t) =>
    if t = "completed" then "Completed"
    else if t = "cancelled" then "Cancelled"
    else if t = "in_progress" then
      (if showingPending then "Production Not Approved" else "In Progress")
    else if t = "pending" then "Production Not Approved"
    else if t ≠ "" then t else "Unknown"
  | some (JsVal.num q) => if q ≠ 0 then fmt.plain q else "Unknown"
  | some JsVal.null => "Unknown"
  | none => "Unknown"

/-- The production branch of `formatResultForAI` (sqlAgent.js lines 756-795). -/
def prodBranchOut (fmt : NumFmt) (result : NLResult) : String :=
  let data := result.data
  let showingPending := showingPendingOf result
  let totalQty := data.foldl (fun acc r => acc + pfOr0 (getF r "quantity_kg")) 0
  let body := data.enum.foldl (fun out p =>
    out ++ toString (p.1 + 1) ++ ". " ++
    (match jsOrChain p.2 ["ppno", "id"] with
     | some v => displayVal fmt v
     | none => "N/A") ++
    (if jsTruthy (getF p.2 "customer_name") then " | " ++ displayProp fmt p.2 "customer_name" else "") ++
    "\n" ++
    (if jsTruthy (getF p.2 "sku") then "   SKU         : " ++ displayProp fmt p.2 "sku" ++ "\n" else "") ++
    (match getF p.2 "quantity_kg" with
     | some v => if v = JsVal.null then "" else "   Qty (kg)    : " ++ fmt.locale (jsNumber v) ++ "\n"
     | none => "") ++
    (if jsTruthy (getF p.2 "status") then
      "   Status      : " ++ prodStatusLabel fmt showingPending (getF p.2 "status") ++ "\n" else "") ++
    (if jsTruthy (getF p.2 "expected_date") then
      "   Expected    : " ++ displayProp fmt p.2 "expected_date" ++ "\n" else "") ++
    (if jsTruthy (getF p.2 "ppnoreference") then
      "   PP Ref      : " ++ displayProp fmt p.2 "ppnoreference" ++ "\n" else "") ++
    (if jsTruthy (getF p.2 "length") then
      "   Length      : " ++ displayProp fmt p.2 "length" ++ "\n" else "") ++
    (if jsTruthy (getF p.2 "notes") then
      "   Notes       : " ++ displayProp fmt p.2 "notes" ++ "\n" else "") ++
    "\n") ""
  let out := "Found " ++ toString result.count ++ " production record(s):\n" ++ hr30 ++ "\n" ++
    body ++ hr30 ++ "\n" ++ "Total Qty : " ++ fmt.locale totalQty ++ " kg\n"
  "\n\n[DIRECT_REPLY:\n" ++ out ++ "]"

/-- `essentialFields` (sqlAgent.js lines 801-807 and 885-891). -/
def essentialFields : List String :=
  ["order_number", "status", "customer_name", "sku", "material_status",
   "po_number", "po_date", "expected_date", "quantity_kg",
   "material", "rate", "payment_terms", "delivery_address",
   "total_dispatched", "remaining_qty", "dispatch_count",
   "despatchno", "weightment_weight", "actual_time"]

/-- One record's essential-field lines: present, non-null, non-empty only. -/
def essentialLines (fmt : NumFmt) (r : Row) : String :=
  essentialFields.foldl (fun ctx field =>
    match getF r field with
    | some v =>
      if v = JsVal.null ∨ v = JsVal.str "" then ctx
      else ctx ++ "  " ++ field ++ ": " ++ displayVal fmt v ++ "\n"
    | none => ctx) ""

/-- The single-record branch (sqlAgent.js lines 798-814). The JS indexes
`data[0]`; the empty-data case (unreachable: count = 1) reads as an empty
record here. -/
def singleBranchOut (fmt : NumFmt) (result : NLResult) : String :=
  "\n\n[SYSTEM: Found 1 record.\nDATA:\n" ++
  essentialLines fmt (result.data.head?.getD []) ++
  "Present this data as plain text, no markdown, no emojis.]"

/-- `isOrderList` (sqlAgent.js line 821). -/
def isOrderListOf (result : NLResult) : Bool :=
  match result.data.head? with
  | some r0 => (getF r0 "order_number").isSome
  | none => false

/-- The order-list branch (sqlAgent.js lines 823-861). -/
def orderListBranchOut (fmt : NumFmt) (result : NLResult) : String :=
  let limited := result.data
  let totalOrderQty := limited.foldl (fun acc r => acc + pfOr0 (getF r "quantity_kg")) 0
  let totalDispatched := limited.foldl (fun acc r => acc + pfOr0 (getF r "total_dispatched")) 0
  let totalRemaining := limited.foldl (fun acc r => acc + pfOr0 (getF r "remaining_qty")) 0
  let body := limited.enum.foldl (fun out p =>
    out ++ toString (p.1 + 1) ++ ". " ++
    (if jsTruthy (getF p.2 "order_number") then displayProp fmt p.2 "order_number" else "N/A") ++
    (if jsTruthy (getF p.2 "customer_name") then " | " ++ displayProp fmt p.2 "customer_name" else "") ++
    "\n" ++
    (if jsTruthy (getF p.2 "sku") then "   SKU      : " ++ displayProp fmt p.2 "sku" ++ "\n" else "") ++
    (if jsTruthy (getF p.2 "material") then "   Material : " ++ displayProp fmt p.2 "material" ++ "\n" else "") ++
    (match getF p.2 "quantity_kg" with
     | some v => if v = JsVal.null then "" else "   Ordered  : " ++ fmt.locale (jsNumber v) ++ " kg\n"
     | none => "") ++
    (match getF p.2 "total_dispatched" with
     | some v => if v = JsVal.null then "" else "   Dispatched: " ++ fmt.locale (jsNumber v) ++ " kg\n"
     | none => "") ++
    (match getF p.2 "remaining_qty" with
     | some v => if v = JsVal.null then "" else "   Remaining : " ++ fmt.locale (jsNumber v) ++ " kg\n"
     | none => "") ++
    (if jsTruthy (getF p.2 "status") then "   Status   : " ++ displayProp fmt p.2 "status" ++ "\n" else "") ++
    (if jsTruthy (getF p.2 "material_status") && !(getF p.2 "status" == some (JsVal.str "completed")) then
      "   Mat.Status: " ++ displayProp fmt p.2 "material_status" ++ "\n" else "") ++
    (if jsTruthy (getF p.2 "expected_date") && !(getF p.2 "status" == some (JsVal.str "completed")) then
      "   Expected  : " ++ displayProp fmt p.2 "expected_date" ++ "\n" else "") ++
    (if jsTruthy (getF p.2 "po_number") then "   PO Number : " ++ displayProp fmt p.2 "po_number" ++ "\n" else "") ++
    "\n") ""
  let out := "Found " ++ toString result.count ++ " order(s):\n" ++ hr30 ++ "\n" ++ body ++
    hr30 ++ "\n" ++ "TOTALS:\n" ++
    "  Total Ordered   : " ++ fmt.locale totalOrderQty ++ " kg\n" ++
    "  Total Dispatched: " ++ fmt.locale totalDispatched ++ " kg\n" ++
    "  Total Remaining : " ++ fmt.locale totalRemaining ++ " kg\n"
  "\n\n[DIRECT_REPLY:\n" ++ out ++ "]"

/-- `isSkuList` (sqlAgent.js line 865). -/
def isSkuListOf (result : NLResult) : Bool :=
  match result.data.head? with
  | some r0 =>
    ((getF r0 "sku_code").isSome || (getF r0 "sku_name").isSome || (getF r0 "skuname").isSome) &&
    !(closingQtyKeys.any (fun k => (getF r0 k).isSome))
  | none => false

/-- The SKU-list branch (sqlAgent.js lines 867-881). -/
def skuListBranchOut (fmt : NumFmt) (result : NLResult) : String :=
  let body := result.data.enum.foldl (fun out p =>
    out ++ toString (p.1 + 1) ++ ". " ++
    (match jsOrChain p.2 ["skuname", "sku_code", "sku_name", "name", "id"] with
     | some v => displayVal fmt v
     | none => "SKU " ++ toString (p.1 + 1)) ++ "\n" ++
    (if jsTruthy (getF p.2 "description") then
      "   Description : " ++ displayProp fmt p.2 "description" ++ "\n" else "") ++
    (if jsTruthy (getF p.2 "unit") then
      "   Unit        : " ++ displayProp fmt p.2 "unit" ++ "\n" else "") ++
    (if jsTruthy (getF p.2 "category") then
      "   Category    : " ++ displayProp fmt p.2 "category" ++ "\n" else "") ++
    "\n") ""
  "\n\n[DIRECT_REPLY:\n" ++
  "SKU List (" ++ toString result.count ++ " item(s)):\n" ++ hr30 ++ "\n" ++ body ++ "]"

/-- The fallback multi-record branch (sqlAgent.js lines 883-902). -/
def fallbackBranchOut (fmt : NumFmt) (result : NLResult) : String :=
  "\n\n[SYSTEM: Found " ++ toString result.count ++ " record(s).\nDATA:\n" ++
  result.data.enum.foldl (fun ctx p =>
    ctx ++ "Record " ++ toString (p.1 + 1) ++ ":\n" ++ essentialLines fmt p.2 ++ "\n") "" ++
  "Present this data as plain text, no markdown, no emojis.]"

/-- `SQLAgent.formatResultForAI` (sqlAgent.js lines 689-903). -/
def formatResultForAI (fmt : NumFmt) (result : NLResult) : String :=
  if result.success = false then
    "Database error: " ++ (result.error.getD "null") ++ ". Please try a different question."
  else if result.count = 0 then
    "No data found for your query."
  else if isStockResultOf result then stockBranchOut fmt result
  else if isProductionResultOf result then prodBranchOut fmt result
  else if result.count = 1 then singleBranchOut fmt result
  else if isOrderListOf result then orderListBranchOut fmt result
  else if isSkuListOf result then skuListBranchOut fmt result
  else fallbackBranchOut fmt result

/-- A successful exact-PP-lookup result whose single row has status `pending`:
the shape the PP fast-path produces on a hit (`_ppLookup := true`,
`isProductionQuery := true`, the PP question as status context). -/
def ppLookupPendingResult : NLResult :=
  { success := true, query := some ppSQL,
    data := [[("ppno", JsVal.str "PP-2602-1595"), ("status", JsVal.str "pending"),
              ("quantity_kg", JsVal.num 100)]],
    count := 1, error := none, isProductionQuery := true,
    statusContext := some "Pp-2602-1595 production plan data", ppLookup := true }

/-- C5: in the production branch of `formatResultForAI`, `_ppLookup = true`
does switch off the pending-view bucketing (`showingPending = false`), and an
`in_progress` row then renders its real status words "In Progress" — but a
`pending` row renders the bucket label "Production Not Approved"
unconditionally (sqlAgent.js line 765 has no `showingPending` test), so the
exact-PP-lookup rendering of a pending plan never shows the real status word:
the claim's "real status words are shown instead of the bucket label" fails
for pending rows, contradicting the code's own comments at lines 309 and 759. -/
theorem pp_lookup_pending_shows_bucket_label :
    showingPendingOf ppLookupPendingResult = false ∧
    prodStatusLabel fmtNull false (some (JsVal.str "in_progress")) = "In Progress" ∧
    prodStatusLabel fmtNull false (some (JsVal.str "pending")) = "Production Not Approved" ∧
    containsSub "Status      : Production Not Approved".data
      (formatResultForAI fmtNull ppLookupPendingResult).data = true ∧
    containsSub "ending".data (formatResultForAI fmtNull ppLookupPendingResult).data = false :=
  ⟨rfl, rfl, rfl, by decide, by decide⟩

/- ──────────── databaseHelper.js (src/unnamed/part_001), relational model ──────────── -/

/- The order-register tables are modelled relationally: each structure is one
row shape, `OrdersDB` holds the tables, and the prepared statements of
databaseHelper.js become filters over them.  Nullable columns are `Option`;
numeric columns are ℚ (the driver hands them to `parseFloat`). -/

structure OrderRow where
  id : Nat
  order_number : String
  customer_id : Nat
  status : String
  quantity_kg : Option ℚ
  material_status : Option String
  expected_date : Option String
  created_at : Nat
deriving DecidableEq

structure DespatchRow where
  id : Nat
  despatchno : Option String
  order_no_id : Nat
deriving DecidableEq

structure WeightmentRow where
  despatch_no : String
  weightment_weight : Option ℚ
deriving DecidableEq

structure InvoiceRow where
  despatch_no : String
  status : String
  actual_time : Option String
deriving DecidableEq

structure OrdersDB where
  orders : List OrderRow
  despatches : List DespatchRow
  weightments : List WeightmentRow
  invoices : List InvoiceRow
  customers : List Customer
deriving DecidableEq

structure DispatchDetail where
  despatchNumber : String
  weight : ℚ
  completionDate : Option String
  completed : Bool
deriving DecidableEq

structure DispatchInfo where
  dispatches : List DispatchDetail
  totalDispatched : ℚ
deriving DecidableEq

/-- The effective dispatch number (part_001 line 68):
`dispatch.despatchno || ... || dispatch.id` — the alternative column names in
the chain do not exist on the row, so the fallback is the row id (rendered
into the `despatch_no = ?` comparison as its decimal string); a falsy chain
(empty/null despatchno and id 0) skips the dispatch. -/
def despatchNoOf (d : DespatchRow) : Option String :=
  match d.despatchno with
  | some s => if s ≠ "" then some s else (if d.id ≠ 0 then some (toString d.id) else none)
  | none => if d.id ≠ 0 then some (toString d.id) else none

/-- `SELECT weightment_weight ... WHERE despatch_no = ?` then
`weights.length > 0 ? parseFloat(weights[0].weightment_weight || 0) : 0`
(part_001 lines 77-91): only the FIRST returned row is read. -/
def dispatchWeightOf (db : OrdersDB) (dno : String) : ℚ :=
  match (db.weightments.filter (fun w => w.despatch_no = dno)).head? with
  | some w => w.weightment_weight.getD 0
  | none => 0

/-- `SELECT actual_time ... WHERE despatch_no = ? AND status = 'completed'`
(part_001 lines 84-88). -/
def completedInvoicesOf (db : OrdersDB) (dno : String) : List InvoiceRow :=
  db.invoices.filter (fun i => i.despatch_no = dno && i.status = "completed")

/-- One iteration of the dispatch loop (part_001 lines 66-103): `none` when the
dispatch-number chain is falsy and the row is skipped. -/
def dispatchDetailOf (db : OrdersDB) (d : DespatchRow) : Option DispatchDetail :=
  match despatchNoOf d with
  | none => none
  | some dno =>
    some { despatchNumber := dno,
           weight := dispatchWeightOf db dno,
           completionDate := ((completedInvoicesOf db dno).head?).bind (fun i => i.actual_time),
           completed := !(completedInvoicesOf db dno).isEmpty }

/-- `DatabaseHelper.getDispatchDetails` (part_001 lines 43-121).  The JS loop
pushes one detail per non-skipped dispatch in order and accumulates the pushed
weights, i.e. a filterMap plus the sum of the kept weights. -/
def getDispatchDetails (db : OrdersDB) (orderId : Nat) : DispatchInfo :=
  if orderId = 0 then { dispatches := [], totalDispatched := 0 }
  else
    let details := (db.despatches.filter (fun d => d.order_no_id = orderId)).filterMap
      (dispatchDetailOf db)
    { dispatches := details,
      totalDispatched := (details.map (fun dd => dd.weight)).sum }

/-- The spec's W: the sum of ALL weightment rows attached to the order's
dispatches (claim C6's "dispatches' weightment rows sum to W"). -/
def orderWeightmentSum (db : OrdersDB) (orderId : Nat) : ℚ :=
  ((db.despatches.filter (fun d => d.order_no_id = orderId)).map (fun d =>
    match despatchNoOf d with
    | some dno =>
      ((db.weightments.filter (fun w => w.despatch_no = dno)).map
        (fun w => w.weightment_weight.getD 0)).sum
    | none => 0)).sum

/-- `LEFT JOIN mastercustomer c ON o.customer_id = c.id` → `c.customer_name`. -/
def joinCustomer (db : OrdersDB) (o : OrderRow) : Option String :=
  (db.customers.find? (fun c => c.id = o.customer_id)).map (fun c => c.customer_name)

/-- A joined order row as `getOrderStatus`'s queries return it. -/
structure OrderJoinRow where
  row : OrderRow
  customer_name : Option String
deriving DecidableEq

/-- The response object of `formatOrderResponse`/`getOrderStatus`; fields the
JS never sets on a branch are `none` (absent). -/
structure OrderResponse where
  found : Bool
  message : Option String := none
  error : Bool := false
  orderNumber : Option String := none
  customerName : Option String := none
  orderStatus : Option String := none
  orderQty : Option ℚ := none
  dataRow : Option OrderRow := none
  materialStatus : Option String := none
  expectedDate : Option String := none
  showMaterialStatus : Option Bool := none
  showExpectedDate : Option Bool := none
  showDispatch : Option Bool := none
  dispatchInfo : Option (List DispatchDetail) := none
  totalDispatched : Option ℚ := none
  remainingQty : Option ℚ := none
  isFullyDispatched : Option Bool := none
deriving DecidableEq

/-- `order.material_status || 'Not yet updated'` (part_001 line 221). -/
def matStatusOr (v : Option String) : String :=
  match v with
  | some s => if s ≠ "" then s else "Not yet updated"
  | none => "Not yet updated"

/-- The fields set before any status branch (part_001 lines 194-205);
`orderQty = parseFloat(order.quantity_kg || 0)`. -/
def orderResponseBase (o : OrderJoinRow) : OrderResponse :=
  { found := true,
    orderNumber := some o.row.order_number,
    customerName := o.customer_name,
    orderStatus := some o.row.status,
    orderQty := some (o.row.quantity_kg.getD 0),
    dataRow := some o.row }

/-- `DatabaseHelper.formatOrderResponse` (part_001 lines 192-246). -/
def formatOrderResponse (o : OrderJoinRow) (info : DispatchInfo) : OrderResponse :=
  if o.row.status = "pending" then
    { orderResponseBase o with
      message := some "Order is pending approval",
      showMaterialStatus := some false, showExpectedDate := some false,
      showDispatch := some false }
  else if o.row.status = "in_progress" then
    { orderResponseBase o with
      materialStatus := some (matStatusOr o.row.material_status),
      expectedDate := o.row.expected_date,
      showMaterialStatus := some true, showExpectedDate := some true,
      showDispatch := some true,
      dispatchInfo := some info.dispatches,
      totalDispatched := some info.totalDispatched,
      remainingQty := some (o.row.quantity_kg.getD 0 - info.totalDispatched) }
  else if o.row.status = "completed" then
    { orderResponseBase o with
      showMaterialStatus := some false, showExpectedDate := some false,
      showDispatch := some true,
      dispatchInfo := some info.dispatches,
      totalDispatched := some info.totalDispatched,
      remainingQty := some (o.row.quantity_kg.getD 0 - info.totalDispatched),
      isFullyDispatched := some (decide (o.row.quantity_kg.getD 0 - info.totalDispatched ≤ 0)) }
  else
    { orderResponseBase o with
      materialStatus := o.row.material_status,
      showMaterialStatus := some true, showExpectedDate := some true,
      expectedDate := o.row.expected_date }

/-- `WHERE o.order_number = ? LIMIT 1` (binary string equality; part_001
lines 133-142). -/
def ordersExact (db : OrdersDB) (n : String) : Option OrderRow :=
  (db.orders.filter (fun o => o.order_number = n)).head?

/-- `WHERE UPPER(o.order_number) = UPPER(?) LIMIT 1` (part_001 lines 148-157). -/
def ordersCI (db : OrdersDB) (n : String) : Option OrderRow :=
  (db.orders.filter (fun o => upperChars o.order_number.data = upperChars n.data)).head?

/-- `DatabaseHelper.getOrderStatus` (part_001 lines 124-189); the relational
model never throws, so the catch branch (error:true) is unreachable here. -/
def getOrderStatus (db : OrdersDB) (orderNumber : String) : OrderResponse :=
  match ordersExact db orderNumber with
  | some o => formatOrderResponse ⟨o, joinCustomer db o⟩ (getDispatchDetails db o.id)
  | none =>
    match ordersCI db orderNumber with
    | some o => formatOrderResponse ⟨o, joinCustomer db o⟩ (getDispatchDetails db o.id)
    | none =>
      { found := false,
        message := some ("Order number " ++ orderNumber ++ " not found in our system.") }

/-- Insertion step for `ORDER BY created_at DESC`. -/
def insertByCreatedDesc (o : OrderRow) : List OrderRow → List OrderRow
  | [] => [o]
  | x :: xs => if x.created_at ≥ o.created_at then x :: insertByCreatedDesc o xs else o :: x :: xs

/-- `ORDER BY created_at DESC` as an insertion sort (ties in an unspecified
but fixed order, as in SQL). -/
def sortByCreatedDesc (l : List OrderRow) : List OrderRow :=
  l.foldr insertByCreatedDesc []

/-- One entry of `getOrdersByCustomer`'s result: the joined row spread
together with its `dispatchInfo`. -/
structure OrderWithDispatch where
  row : OrderRow
  customer_name : Option String
  dispatchInfo : DispatchInfo
deriving DecidableEq

structure CustomerOrdersResult where
  found : Bool
  count : Nat
  orders : List OrderWithDispatch
deriving DecidableEq

/-- `DatabaseHelper.getOrdersByCustomer` (part_001 lines 296-376): status
'pending' selects pending+in_progress, 'completed' selects completed,
anything else (null) selects all; each order gets `getDispatchDetails`. -/
def getOrdersByCustomer (db : OrdersDB) (customerId : Nat) (status : Option String) :
    CustomerOrdersResult :=
  let base := db.orders.filter (fun o => o.customer_id = customerId)
  let filtered :=
    if status = some "pending" then
      base.filter (fun o => o.status = "pending" || o.status = "in_progress")
    else if status = some "completed" then
      base.filter (fun o => o.status = "completed")
    else base
  let sorted := sortByCreatedDesc filtered
  let withD := sorted.map (fun o =>
    ({ row := o, customer_name := joinCustomer db o,
       dispatchInfo := getDispatchDetails db o.id } : OrderWithDispatch))
  { found := !sorted.isEmpty, count := sorted.length, orders := withD }

/- ──────────── C6 / C7 theorems ──────────── -/

/-- A dispatch's reported weight equals the sum of its weightment rows
whenever there is at most one such row. -/
theorem weight_eq_rowSum (db : OrdersDB) (dno : String)
    (hlen : (db.weightments.filter (fun w => w.despatch_no = dno)).length ≤ 1) :
    dispatchWeightOf db dno =
    ((db.weightments.filter (fun w => w.despatch_no = dno)).map
      (fun w => w.weightment_weight.getD 0)).sum := by
  unfold dispatchWeightOf
  cases hfl : db.weightments.filter (fun w => w.despatch_no = dno) with
  | nil => simp
  | cons w ws =>
    rw [hfl] at hlen
    cases ws with
    | nil => simp
    | cons w2 ws2 => simp at hlen

theorem detailsSum_eq (db : OrdersDB) (l : List DespatchRow)
    (h : ∀ d ∈ l, despatchNoOf d ≠ none ∧
      (db.weightments.filter
        (fun w => w.despatch_no = (despatchNoOf d).getD "")).length ≤ 1) :
    ((l.filterMap (dispatchDetailOf db)).map (fun dd => dd.weight)).sum =
    (l.map (fun d =>
      match despatchNoOf d with
      | some dno => ((db.weightments.filter (fun w => w.despatch_no = dno)).map
          (fun w => w.weightment_weight.getD 0)).sum
      | none => 0)).sum := by
  induction l with
  | nil => rfl
  | cons d t ih =>
    obtain ⟨hne, hlen⟩ := h d (List.mem_cons_self d t)
    have ht := fun x hx => h x (List.mem_cons_of_mem d hx)
    obtain ⟨dno, hdno⟩ : ∃ dno, despatchNoOf d = some dno := by
      cases hd : despatchNoOf d with
      | none => exact absurd hd hne
      | some v => exact ⟨v, rfl⟩
    rw [hdno] at hlen
    simp only [Option.getD_some] at hlen
    have hf : dispatchDetailOf db d = some
        { despatchNumber := dno, weight := dispatchWeightOf db dno,
          completionDate := ((completedInvoicesOf db dno).head?).bind (fun i => i.actual_time),
          completed := !(completedInvoicesOf db dno).isEmpty } := by
      unfold dispatchDetailOf; rw [hdno]
    rw [List.filterMap_cons_some hf, List.map_cons, List.sum_cons,
        List.map_cons, List.sum_cons, ih ht, hdno]
    congr 1
    exact weight_eq_rowSum db dno hlen

theorem getDispatchDetails_eq_sum (db : OrdersDB) (orderId : Nat) (h0 : orderId ≠ 0)
    (h : ∀ d ∈ db.despatches.filter (fun d => d.order_no_id = orderId),
      despatchNoOf d ≠ none ∧
      (db.weightments.filter
        (fun w => w.despatch_no = (despatchNoOf d).getD "")).length ≤ 1) :
    (getDispatchDetails db orderId).totalDispatched = orderWeightmentSum db orderId := by
  unfold getDispatchDetails orderWeightmentSum
  rw [if_neg h0]
  exact detailsSum_eq db _ h

theorem formatOrderResponse_reports (o : OrderJoinRow) (info : DispatchInfo)
    (hst : o.row.status = "in_progress" ∨ o.row.status = "completed") :
    (formatOrderResponse o info).totalDispatched = some info.totalDispatched ∧
    (formatOrderResponse o info).remainingQty =
      some (o.row.quantity_kg.getD 0 - info.totalDispatched) := by
  rcases hst with hst | hst <;> simp [formatOrderResponse, hst]

theorem getOrderStatus_eq_format (db : OrdersDB) (n : String) (o : OrderRow)
    (h : ordersExact db n = some o ∨ (ordersExact db n = none ∧ ordersCI db n = some o)) :
    getOrderStatus db n =
      formatOrderResponse ⟨o, joinCustomer db o⟩ (getDispatchDetails db o.id) := by
  rcases h with h | ⟨h1, h2⟩
  · unfold getOrderStatus; rw [h]
  · unfold getOrderStatus; rw [h1, h2]

theorem getOrdersByCustomer_dispatch (db : OrdersDB) (cid : Nat) (status : Option String)
    (e : OrderWithDispatch) (he : e ∈ (getOrdersByCustomer db cid status).orders) :
    e.dispatchInfo = getDispatchDetails db e.row.id := by
  unfold getOrdersByCustomer at he
  dsimp only at he
  rw [List.mem_map] at he
  obtain ⟨o, ho, rfl⟩ := he
  rfl

/-- An in-progress order of 1000 kg with ONE dispatch carrying TWO weightment
rows (200 kg and 100 kg): the spec's W is 300, the code reads only the first
row. -/
def dbC6 : OrdersDB :=
  { orders := [{ id := 1, order_number := "ORD-1", customer_id := 7, status := "in_progress",
                 quantity_kg := some 1000, material_status := some "Material ready",
                 expected_date := some "2025-01-01", created_at := 10 }],
    despatches := [{ id := 11, despatchno := some "DSP-1", order_no_id := 1 }],
    weightments := [{ despatch_no := "DSP-1", weightment_weight := some 200 },
                    { despatch_no := "DSP-1", weightment_weight := some 100 }],
    invoices := [],
    customers := [{ id := 7, customer_name := "Acme" }] }

/-- C6 counterexample: for the order of `dbC6` the dispatches' weightment rows
sum to W = 300, but `getDispatchDetails` reads only `weights[0]` per dispatch
(part_001 line 90), reporting total_dispatched = 200; `getOrderStatus` then
reports total_dispatched 200 and remaining_qty 1000 − 200 = 800, not the
claimed W = 300 and Q − W = 700. -/
theorem dispatch_first_weight_only_cex :
    orderWeightmentSum dbC6 1 = 300 ∧
    (getDispatchDetails dbC6 1).totalDispatched = 200 ∧
    (getDispatchDetails dbC6 1).totalDispatched ≠ orderWeightmentSum dbC6 1 ∧
    (getOrderStatus dbC6 "ORD-1").orderQty = some 1000 ∧
    (getOrderStatus dbC6 "ORD-1").totalDispatched = some 200 ∧
    (getOrderStatus dbC6 "ORD-1").remainingQty = some 800 := by
  have h1 : orderWeightmentSum dbC6 1 = ((200 : ℚ) + (100 + 0)) + 0 := rfl
  have h2 : (getDispatchDetails dbC6 1).totalDispatched = (200 : ℚ) + 0 := rfl
  have h3 : (getOrderStatus dbC6 "ORD-1").totalDispatched = some ((200 : ℚ) + 0) := rfl
  have h4 : (getOrderStatus dbC6 "ORD-1").remainingQty = some ((1000 : ℚ) - (200 + 0)) := rfl
  refine ⟨by rw [h1]; norm_num, by rw [h2]; norm_num, by rw [h1, h2]; norm_num,
          rfl, by rw [h3]; norm_num, by rw [h4]; norm_num⟩

/-- C6 (amended): the reported total equals the per-dispatch FIRST weightment
row summed over dispatches; it agrees with the spec's W when every dispatch
has at most one weightment row, and the remaining quantity is Q minus that
total; `getOrderStatus` (exact or case-insensitive hit) reports exactly these
values through `formatOrderResponse` on the in_progress and completed
branches, and every entry of the customer order list carries the dispatch
info of the same `getDispatchDetails`, so all paths agree for the same
order. -/
theorem dispatch_totals_amended :
    (∀ (db : OrdersDB) (orderId : Nat), orderId ≠ 0 →
      (∀ d ∈ db.despatches.filter (fun d => d.order_no_id = orderId),
        despatchNoOf d ≠ none ∧
        (db.weightments.filter
          (fun w => w.despatch_no = (despatchNoOf d).getD "")).length ≤ 1) →
      (getDispatchDetails db orderId).totalDispatched = orderWeightmentSum db orderId) ∧
    (∀ (o : OrderJoinRow) (info : DispatchInfo),
      o.row.status = "in_progress" ∨ o.row.status = "completed" →
      (formatOrderResponse o info).totalDispatched = some info.totalDispatched ∧
      (formatOrderResponse o info).remainingQty =
        some (o.row.quantity_kg.getD 0 - info.totalDispatched)) ∧
    (∀ (db : OrdersDB) (n : String) (o : OrderRow),
      ordersExact db n = some o ∨ (ordersExact db n = none ∧ ordersCI db n = some o) →
      getOrderStatus db n =
        formatOrderResponse ⟨o, joinCustomer db o⟩ (getDispatchDetails db o.id)) ∧
    (∀ (db : OrdersDB) (cid : Nat) (status : Option String) (e : OrderWithDispatch),
      e ∈ (getOrdersByCustomer db cid status).orders →
      e.dispatchInfo = getDispatchDetails db e.row.id) :=
  ⟨getDispatchDetails_eq_sum, formatOrderResponse_reports, getOrderStatus_eq_format,
   getOrdersByCustomer_dispatch⟩

/-- `dbC6` with its second weightment row removed: one row per dispatch. -/
def dbC6single : OrdersDB :=
  { orders := dbC6.orders,
    despatches := dbC6.despatches,
    weightments := [{ despatch_no := "DSP-1", weightment_weight := some 200 }],
    invoices := [],
    customers := dbC6.customers }

theorem dispatch_totals_amended_witness :
    (getDispatchDetails dbC6single 1).totalDispatched = orderWeightmentSum dbC6single 1 :=
  dispatch_totals_amended.1 dbC6single 1 (by decide) (by decide)

/-- Every branch of `formatOrderResponse` reports the order's own status. -/
theorem formatOrderResponse_orderStatus (o : OrderJoinRow) (info : DispatchInfo) :
    (formatOrderResponse o info).orderStatus = some o.row.status := by
  unfold formatOrderResponse
  split_ifs <;> rfl

/-- The visible-field flags of a formatted order depend only on its status. -/
theorem formatOrderResponse_flags (o : OrderJoinRow) (info : DispatchInfo) :
    ((formatOrderResponse o info).orderStatus = some "pending" →
      (formatOrderResponse o info).showMaterialStatus = some false ∧
      (formatOrderResponse o info).showExpectedDate = some false ∧
      (formatOrderResponse o info).showDispatch = some false) ∧
    ((formatOrderResponse o info).orderStatus = some "in_progress" →
      (formatOrderResponse o info).showMaterialStatus = some true ∧
      (formatOrderResponse o info).showExpectedDate = some true ∧
      (formatOrderResponse o info).showDispatch = some true) ∧
    ((formatOrderResponse o info).orderStatus = some "completed" →
      (formatOrderResponse o info).showMaterialStatus = some false ∧
      (formatOrderResponse o info).showExpectedDate = some false ∧
      (formatOrderResponse o info).showDispatch = some true ∧
      ∃ r, (formatOrderResponse o info).remainingQty = some r ∧
        (formatOrderResponse o info).isFullyDispatched = some (decide (r ≤ 0))) := by
  have hos := formatOrderResponse_orderStatus o info
  refine ⟨?_, ?_, ?_⟩
  · intro h
    rw [hos, Option.some.injEq] at h
    simp [formatOrderResponse, h]
  · intro h
    rw [hos, Option.some.injEq] at h
    simp [formatOrderResponse, h]
  · intro h
    rw [hos, Option.some.injEq] at h
    exact ⟨by simp [formatOrderResponse, h], by simp [formatOrderResponse, h],
           by simp [formatOrderResponse, h],
           o.row.quantity_kg.getD 0 - info.totalDispatched,
           by simp [formatOrderResponse, h], by simp [formatOrderResponse, h]⟩

/-- C7: for every response of `getOrderStatus` (an exact hit, a
case-insensitive hit, or not-found — in the found cases the response is
`formatOrderResponse` of the matched order), the visible-field flags are a
function of the reported status alone: pending hides material status,
expected date and dispatch info; in_progress shows all three; completed
shows dispatch info, hides material status and expected date, and carries
`isFullyDispatched` true exactly when the reported remaining quantity is at
most 0. -/
theorem order_status_visible_fields :
    ∀ (db : OrdersDB) (n : String),
      ((getOrderStatus db n).orderStatus = some "pending" →
        (getOrderStatus db n).showMaterialStatus = some false ∧
        (getOrderStatus db n).showExpectedDate = some false ∧
        (getOrderStatus db n).showDispatch = some false) ∧
      ((getOrderStatus db n).orderStatus = some "in_progress" →
        (getOrderStatus db n).showMaterialStatus = some true ∧
        (getOrderStatus db n).showExpectedDate = some true ∧
        (getOrderStatus db n).showDispatch = some true) ∧
      ((getOrderStatus db n).orderStatus = some "completed" →
        (getOrderStatus db n).showMaterialStatus = some false ∧
        (getOrderStatus db n).showExpectedDate = some false ∧
        (getOrderStatus db n).showDispatch = some true ∧
        ∃ r, (getOrderStatus db n).remainingQty = some r ∧
          (getOrderStatus db n).isFullyDispatched = some (decide (r ≤ 0))) := by
  intro db n
  unfold getOrderStatus
  cases hex : ordersExact db n with
  | some o => exact formatOrderResponse_flags ⟨o, joinCustomer db o⟩ (getDispatchDetails db o.id)
  | none =>
    cases hci : ordersCI db n with
    | some o => exact formatOrderResponse_flags ⟨o, joinCustomer db o⟩ (getDispatchDetails db o.id)
    | none =>
      refine ⟨fun h => ?_, fun h => ?_, fun h => ?_⟩ <;> exact absurd h (by simp)
